import Mathlib

/-!
# Conductor: the SQL persistence layer

A shallow embedding of `pkg/sql/creator.go`, `pkg/sql/getter.go`, the URL
templating and the signup handler of `pkg/handlers/user.go`, and
`model/ratio.go`.

The relational store is a record of tables, each table a list of rows in
storage order.  The code talks to the store through driver calls
(`tx.Exec`, `tx.NamedExec`, `tx.NamedQuery`, `tx.Get`, `db.Get`, `db.Select`,
`db.Query`).  A driver call is modelled by its effect on the store, and may
instead fail with an injected error.  Numeric payload columns (scores,
coordinates, exposure data) are only carried, never computed with, and are
modelled as integers.
-/

namespace Conductor

/-- Error values returned by the driver. -/
abbrev Err := String

/-! ## Domain types (package `model`, reconstructed from their uses) -/

structure Point where
  X : Int
  Y : Int
deriving DecidableEq, Repr

structure ImageMetadata where
  Aperture : Int
  ExposureTime : Int
  FocalLength : Int
  ISO : Int
  Make : String
  Model : String
  LensMake : String
  LensModel : String
  PixelXDimension : Int
  PixelYDimension : Int
  CaptureTime : Int
  Location : Point
  ImageDirection : Int
deriving DecidableEq, Repr

structure Landmark where
  Description : String
  Location : Point
  Score : Int
deriving DecidableEq, Repr

structure SRGB where
  R : Int
  G : Int
  B : Int
deriving DecidableEq, Repr

structure HSV where
  H : Int
  S : Int
  V : Int
deriving DecidableEq, Repr

structure Color where
  SRGB : SRGB
  HSV : HSV
  Shade : String
  ColorName : String
  PixelFraction : Int
  Score : Int
  Hex : String
deriving DecidableEq, Repr

structure Label where
  Description : String
  Score : Int
deriving DecidableEq, Repr

structure ImageSource where
  Raw : String
  Large : String
  Medium : String
  Small : String
  Thumb : String
deriving DecidableEq, Repr

structure ImageStats where
  Downloads : Int
  Views : Int
  Favorites : Int
deriving DecidableEq, Repr

structure Image where
  Id : Int
  OwnerId : Int
  Shortcode : String
  PublishTime : Int
  Featured : Bool
  Metadata : ImageMetadata
  Landmarks : List Landmark
  Colors : List Color
  Labels : List Label
  Tags : List String
  Stats : ImageStats
  Source : ImageSource
deriving DecidableEq, Repr

structure User where
  Id : Int
  Username : String
  Email : String
  Password : String
  Salt : String
  Images : List Image
  Favorites : List Image
deriving DecidableEq, Repr

/-! ## Rows and tables -/

structure ImageRow where
  id : Int
  owner_id : Int
  shortcode : String
  publish_time : Int
  featured : Bool
  downloads : Int
  views : Int
  favorites : Int
deriving DecidableEq, Repr

structure MetadataRow where
  image_id : Int
  aperture : Int
  exposure_time : Int
  focal_length : Int
  iso : Int
  make : String
  model : String
  lens_make : String
  lens_model : String
  pixel_xd : Int
  pixel_yd : Int
  capture_time : Int
deriving DecidableEq, Repr

structure GeoRow where
  image_id : Int
  loc : Point
  dir : Int
deriving DecidableEq, Repr

structure LandmarkRow where
  id : Int
  desc : String
  location : Point
deriving DecidableEq, Repr

structure ColorRow where
  id : Int
  red : Int
  green : Int
  blue : Int
  hue : Int
  saturation : Int
  val : Int
  shade : String
  color : String
deriving DecidableEq, Repr

structure LabelRow where
  id : Int
  description : String
deriving DecidableEq, Repr

structure LandmarkBridgeRow where
  image_id : Int
  landmark_id : Int
  score : Int
deriving DecidableEq, Repr

structure ColorBridgeRow where
  image_id : Int
  color_id : Int
  pixel_fraction : Int
  score : Int
deriving DecidableEq, Repr

structure LabelBridgeRow where
  image_id : Int
  label_id : Int
  score : Int
deriving DecidableEq, Repr

structure PermissionRow where
  user_id : Int
  o_id : Int
  type : String
deriving DecidableEq, Repr

structure UserRow where
  id : Int
  username : String
  email : String
  password : String
  salt : String
deriving DecidableEq, Repr

structure TagRow where
  id : Int
  description : String
deriving DecidableEq, Repr

structure TagBridgeRow where
  image_id : Int
  tag_id : Int
deriving DecidableEq, Repr

structure FavoriteRow where
  user_id : Int
  image_id : Int
deriving DecidableEq, Repr

structure FollowRow where
  user_id : Int
  followed_id : Int
deriving DecidableEq, Repr

/-- The relational store: schemas `content` and `permissions`. -/
structure Store where
  images : List ImageRow
  image_metadata : List MetadataRow
  image_geo : List GeoRow
  landmarks : List LandmarkRow
  colors : List ColorRow
  labels : List LabelRow
  image_landmark_bridge : List LandmarkBridgeRow
  image_color_bridge : List ColorBridgeRow
  image_label_bridge : List LabelBridgeRow
  can_edit : List PermissionRow
  can_delete : List PermissionRow
  can_view : List PermissionRow
  users : List UserRow
  image_tags : List TagRow
  image_tag_bridge : List TagBridgeRow
  user_favorites : List FavoriteRow
  user_follows : List FollowRow
deriving DecidableEq, Repr

/-- The store with no rows. -/
def Store.empty : Store :=
  { images := [], image_metadata := [], image_geo := [], landmarks := [], colors := [],
    labels := [], image_landmark_bridge := [], image_color_bridge := [],
    image_label_bridge := [], can_edit := [], can_delete := [], can_view := [], users := [],
    image_tags := [], image_tag_bridge := [], user_favorites := [], user_follows := [] }

/-! ## Driver calls inside a transaction -/

/-- The driver calls issued by the write paths, in the order of `creator.go`. -/
inductive Stmt where
  | beginx
  | insertImage
  | insertMetadata
  | insertGeo
  | selectLandmark (desc : String)
  | insertLandmark (desc : String)
  | insertLandmarkBridge (landmark_id : Int)
  | selectColor (r g b : Int)
  | insertColor (r g b : Int)
  | insertColorBridge (color_id : Int)
  | selectLabel (description : String)
  | insertLabel (description : String)
  | insertLabelBridge (label_id : Int)
  | insertCanEdit
  | insertCanDelete
  | insertCanView
  | insertUser
  | commit
  | rollback
deriving DecidableEq, Repr

/-- What the code cannot control: which driver call fails (by its position in
the sequence of calls issued by one invocation) and with what error, which id
the storage generates for an inserted row, what `Get` does on an empty result
set (`some e`: it returns the error `e`; `none`: it returns `nil` and leaves
the destination untouched), and the column defaults of `content.images`. -/
structure Env where
  stmtErr : Nat → Option Err
  genId : Nat → Int
  getEmpty : Option Err
  imageDefaults : ImageRow

/-- A transaction in progress: its working copy of the store and the driver
calls issued so far. -/
structure Tx where
  st : Store
  log : List Stmt

/-- A statement executed for its effect (`tx.Exec`, `tx.NamedExec`): it either
fails with the injected error and changes nothing, or applies its effect. -/
def Tx.run (env : Env) (tx : Tx) (s : Stmt) (effect : Store → Store) : Option Err × Tx :=
  match env.stmtErr tx.log.length with
  | some e => (some e, { st := tx.st, log := tx.log ++ [s] })
  | none => (none, { st := effect tx.st, log := tx.log ++ [s] })

/-- An `INSERT ... RETURNING id` read into `dest`: on success the row is
stored under the generated id, which is written to the destination. -/
def Tx.insertReturning (env : Env) (tx : Tx) (s : Stmt) (effect : Int → Store → Store)
    (dest : Int) : Option Err × Tx × Int :=
  match env.stmtErr tx.log.length with
  | some e => (some e, { st := tx.st, log := tx.log ++ [s] }, dest)
  | none =>
    (none, { st := effect (env.genId tx.log.length) tx.st, log := tx.log ++ [s] },
      env.genId tx.log.length)

/-- A `tx.Get(&dest, "SELECT id ...")`: `found` is the id of the first row of
the result set, if any. -/
def Tx.getId (env : Env) (tx : Tx) (s : Stmt) (found : Option Int) (dest : Int) :
    Option Err × Tx × Int :=
  match env.stmtErr tx.log.length with
  | some e => (some e, { st := tx.st, log := tx.log ++ [s] }, dest)
  | none =>
    match found with
    | some id => (none, { st := tx.st, log := tx.log ++ [s] }, id)
    | none =>
      match env.getEmpty with
      | some e => (some e, { st := tx.st, log := tx.log ++ [s] }, dest)
      | none => (none, { st := tx.st, log := tx.log ++ [s] }, dest)

/-! ## Queries of the write path -/

/-- The query `SELECT id FROM content.landmarks WHERE desc = $1`. -/
def findLandmark (st : Store) (desc : String) : Option Int :=
  (st.landmarks.find? (fun r => r.desc == desc)).map (fun r => r.id)

/-- The query `SELECT id FROM content.colors WHERE red = $1 AND green = $2 AND blue = $3`. -/
def findColor (st : Store) (r g b : Int) : Option Int :=
  (st.colors.find? (fun c => c.red == r && c.green == g && c.blue == b)).map (fun c => c.id)

/-- The query `SELECT id FROM content.labels WHERE description = $1`. -/
def findLabel (st : Store) (description : String) : Option Int :=
  (st.labels.find? (fun r => r.description == description)).map (fun r => r.id)

def addImage (env : Env) (image : Image) (id : Int) (st : Store) : Store :=
  { st with images := st.images ++
      [{ env.imageDefaults with id := id, owner_id := image.OwnerId,
                                shortcode := image.Shortcode }] }

def addMetadata (image : Image) (st : Store) : Store :=
  { st with image_metadata := st.image_metadata ++
      [{ image_id := image.Id, aperture := image.Metadata.Aperture,
         exposure_time := image.Metadata.ExposureTime,
         focal_length := image.Metadata.FocalLength, iso := image.Metadata.ISO,
         make := image.Metadata.Make, model := image.Metadata.Model,
         lens_make := image.Metadata.LensMake, lens_model := image.Metadata.LensModel,
         pixel_xd := image.Metadata.PixelXDimension,
         pixel_yd := image.Metadata.PixelYDimension,
         capture_time := image.Metadata.CaptureTime }] }

def addGeo (image : Image) (st : Store) : Store :=
  { st with image_geo := st.image_geo ++
      [{ image_id := image.Id, loc := image.Metadata.Location,
         dir := image.Metadata.ImageDirection }] }

def addLandmark (l : Landmark) (id : Int) (st : Store) : Store :=
  { st with landmarks := st.landmarks ++
      [{ id := id, desc := l.Description, location := l.Location }] }

def addLandmarkBridge (imageId landmarkID : Int) (l : Landmark) (st : Store) : Store :=
  { st with image_landmark_bridge := st.image_landmark_bridge ++
      [{ image_id := imageId, landmark_id := landmarkID, score := l.Score }] }

def addColor (c : Color) (id : Int) (st : Store) : Store :=
  { st with colors := st.colors ++
      [{ id := id, red := c.SRGB.R, green := c.SRGB.G, blue := c.SRGB.B, hue := c.HSV.H,
         saturation := c.HSV.S, val := c.HSV.V, shade := c.Shade, color := c.ColorName }] }

def addColorBridge (imageId colorID : Int) (c : Color) (st : Store) : Store :=
  { st with image_color_bridge := st.image_color_bridge ++
      [{ image_id := imageId, color_id := colorID, pixel_fraction := c.PixelFraction,
         score := c.Score }] }

def addLabel (l : Label) (id : Int) (st : Store) : Store :=
  { st with labels := st.labels ++ [{ id := id, description := l.Description }] }

def addLabelBridge (imageId labelID : Int) (l : Label) (st : Store) : Store :=
  { st with image_label_bridge := st.image_label_bridge ++
      [{ image_id := imageId, label_id := labelID, score := l.Score }] }

def addCanEdit (userId oId : Int) (type : String) (st : Store) : Store :=
  { st with can_edit := st.can_edit ++ [{ user_id := userId, o_id := oId, type := type }] }

def addCanDelete (userId oId : Int) (type : String) (st : Store) : Store :=
  { st with can_delete := st.can_delete ++ [{ user_id := userId, o_id := oId, type := type }] }

def addCanView (userId oId : Int) (type : String) (st : Store) : Store :=
  { st with can_view := st.can_view ++ [{ user_id := userId, o_id := oId, type := type }] }

def addUser (user : User) (id : Int) (st : Store) : Store :=
  { st with users := st.users ++
      [{ id := id, username := user.Username, email := user.Email,
         password := user.Password, salt := user.Salt }] }

/-! ## The write paths of `creator.go` -/

/-- What a write path leaves behind: the returned error (`none` is `nil`),
the committed store, and the transaction with its working copy and the driver
calls issued. -/
structure Outcome where
  err : Option Err
  committed : Store
  tx : Tx

/-- The loop `for _, landmark := range image.Landmarks`; `landmarkID` is
declared before the loop and lives across iterations.  Returns the error
that left the function, if any. -/
def landmarksLoop (env : Env) (imageId : Int) :
    List Landmark → Int → Tx → Option Err × Tx
  | [], _, tx => (none, tx)
  | landmark :: rest, landmarkID, tx =>
    match tx.getId env (.selectLandmark landmark.Description)
        (findLandmark tx.st landmark.Description) landmarkID with
    | (some e, tx1, _) => (some e, tx1)
    | (none, tx1, id1) =>
      if id1 = 0 then
        match tx1.insertReturning env (.insertLandmark landmark.Description)
            (addLandmark landmark) id1 with
        | (some e, tx2, _) => (some e, tx2)
        | (none, tx2, id2) =>
          match tx2.run env (.insertLandmarkBridge id2)
              (addLandmarkBridge imageId id2 landmark) with
          | (some e, tx3) => (some e, tx3)
          | (none, tx3) => landmarksLoop env imageId rest id2 tx3
      else
        match tx1.run env (.insertLandmarkBridge id1)
            (addLandmarkBridge imageId id1 landmark) with
        | (some e, tx3) => (some e, tx3)
        | (none, tx3) => landmarksLoop env imageId rest id1 tx3

/-- The loop `for _, color := range image.Colors`. -/
def colorsLoop (env : Env) (imageId : Int) :
    List Color → Int → Tx → Option Err × Tx
  | [], _, tx => (none, tx)
  | color :: rest, colorID, tx =>
    match tx.getId env (.selectColor color.SRGB.R color.SRGB.G color.SRGB.B)
        (findColor tx.st color.SRGB.R color.SRGB.G color.SRGB.B) colorID with
    | (some e, tx1, _) => (some e, tx1)
    | (none, tx1, id1) =>
      if id1 = 0 then
        match tx1.insertReturning env (.insertColor color.SRGB.R color.SRGB.G color.SRGB.B)
            (addColor color) id1 with
        | (some e, tx2, _) => (some e, tx2)
        | (none, tx2, id2) =>
          match tx2.run env (.insertColorBridge id2)
              (addColorBridge imageId id2 color) with
          | (some e, tx3) => (some e, tx3)
          | (none, tx3) => colorsLoop env imageId rest id2 tx3
      else
        match tx1.run env (.insertColorBridge id1)
            (addColorBridge imageId id1 color) with
        | (some e, tx3) => (some e, tx3)
        | (none, tx3) => colorsLoop env imageId rest id1 tx3

/-- The loop `for _, label := range image.Labels`.  The error of the label
insert is assigned to `err` and overwritten by the bridge insert without
having been tested. -/
def labelsLoop (env : Env) (imageId : Int) :
    List Label → Int → Tx → Option Err × Tx
  | [], _, tx => (none, tx)
  | label :: rest, labelID, tx =>
    match tx.getId env (.selectLabel label.Description)
        (findLabel tx.st label.Description) labelID with
    | (some e, tx1, _) => (some e, tx1)
    | (none, tx1, id1) =>
      if id1 = 0 then
        match tx1.insertReturning env (.insertLabel label.Description)
            (addLabel label) id1 with
        | (_, tx2, id2) =>
          match tx2.run env (.insertLabelBridge id2)
              (addLabelBridge imageId id2 label) with
          | (some e, tx3) => (some e, tx3)
          | (none, tx3) => labelsLoop env imageId rest id2 tx3
      else
        match tx1.run env (.insertLabelBridge id1)
            (addLabelBridge imageId id1 label) with
        | (some e, tx3) => (some e, tx3)
        | (none, tx3) => labelsLoop env imageId rest id1 tx3

/-- The tail of `CreateImage`: the three permission inserts and the commit,
with the rollback that follows a failed commit. -/
def finishImage (env : Env) (committed : Store) (image : Image) (tx : Tx) : Outcome :=
  match tx.run env .insertCanEdit (addCanEdit image.OwnerId image.Id "image") with
  | (some e, tx1) => { err := some e, committed := committed, tx := tx1 }
  | (none, tx1) =>
    match tx1.run env .insertCanDelete (addCanDelete image.OwnerId image.Id "image") with
    | (some e, tx2) => { err := some e, committed := committed, tx := tx2 }
    | (none, tx2) =>
      match tx2.run env .insertCanView (addCanView (-1) image.Id "image") with
      | (some e, tx3) => { err := some e, committed := committed, tx := tx3 }
      | (none, tx3) =>
        match tx3.run env .commit id with
        | (none, tx4) => { err := none, committed := tx4.st, tx := tx4 }
        | (some e, tx4) =>
          match tx4.run env .rollback id with
          | (some e2, tx5) => { err := some e2, committed := committed, tx := tx5 }
          | (none, tx5) => { err := some e, committed := committed, tx := tx5 }

/-- Go function `CreateImage(image model.Image) error`, run against the committed store. -/
def CreateImage (env : Env) (committed : Store) (image : Image) : Outcome :=
  match Tx.run env { st := committed, log := [] } .beginx id with
  | (some e, tx0) => { err := some e, committed := committed, tx := tx0 }
  | (none, tx0) =>
    match tx0.insertReturning env .insertImage (addImage env image) 0 with
    | (some e, tx1, _) => { err := some e, committed := committed, tx := tx1 }
    | (none, tx1, newId) =>
      let image := { image with Id := newId }
      match tx1.run env .insertMetadata (addMetadata image) with
      | (some e, tx2) => { err := some e, committed := committed, tx := tx2 }
      | (none, tx2) =>
        match tx2.run env .insertGeo (addGeo image) with
        | (some e, tx3) => { err := some e, committed := committed, tx := tx3 }
        | (none, tx3) =>
          match landmarksLoop env image.Id image.Landmarks 0 tx3 with
          | (some e, tx4) => { err := some e, committed := committed, tx := tx4 }
          | (none, tx4) =>
            match colorsLoop env image.Id image.Colors 0 tx4 with
            | (some e, tx5) => { err := some e, committed := committed, tx := tx5 }
            | (none, tx5) =>
              match labelsLoop env image.Id image.Labels 0 tx5 with
              | (some e, tx6) => { err := some e, committed := committed, tx := tx6 }
              | (none, tx6) => finishImage env committed image tx6

/-- Go function `CreateUser(user model.User) error`, run against the committed store.  The
named parameter `:id` is bound to the `Id` field of the argument. -/
def CreateUser (env : Env) (committed : Store) (user : User) : Outcome :=
  match Tx.run env { st := committed, log := [] } .beginx id with
  | (some e, tx0) => { err := some e, committed := committed, tx := tx0 }
  | (none, tx0) =>
    match tx0.insertReturning env .insertUser (addUser user) 0 with
    | (some e, tx1, _) => { err := some e, committed := committed, tx := tx1 }
    | (none, tx1, _) =>
      match tx1.run env .insertCanEdit (addCanEdit user.Id user.Id "user") with
      | (some e, tx2) => { err := some e, committed := committed, tx := tx2 }
      | (none, tx2) =>
        match tx2.run env .insertCanDelete (addCanDelete user.Id user.Id "user") with
        | (some e, tx3) => { err := some e, committed := committed, tx := tx3 }
        | (none, tx3) =>
          match tx3.run env .insertCanView (addCanView (-1) user.Id "user") with
          | (some e, tx4) => { err := some e, committed := committed, tx := tx4 }
          | (none, tx4) => { err := none, committed := committed, tx := tx4 }

/-! ## What the three association loops change -/

/-- The store `s2` is `s1` with rows appended to `content.landmarks` and exactly `n` rows
appended to `content.image_landmark_bridge`. -/
def LandmarkExt (s1 s2 : Store) (n : Nat) : Prop :=
  ∃ refs bridges, bridges.length = n ∧
    s2 = { s1 with landmarks := s1.landmarks ++ refs,
                   image_landmark_bridge := s1.image_landmark_bridge ++ bridges }

/-- The store `s2` is `s1` with rows appended to `content.colors` and exactly `n` rows
appended to `content.image_color_bridge`. -/
def ColorExt (s1 s2 : Store) (n : Nat) : Prop :=
  ∃ refs bridges, bridges.length = n ∧
    s2 = { s1 with colors := s1.colors ++ refs,
                   image_color_bridge := s1.image_color_bridge ++ bridges }

/-- The store `s2` is `s1` with rows appended to `content.labels` and exactly `n` rows
appended to `content.image_label_bridge`. -/
def LabelExt (s1 s2 : Store) (n : Nat) : Prop :=
  ∃ refs bridges, bridges.length = n ∧
    s2 = { s1 with labels := s1.labels ++ refs,
                   image_label_bridge := s1.image_label_bridge ++ bridges }

/-! ## Sample environments and inputs -/

/-- No driver call fails. -/
def noFault : Nat → Option Err := fun _ => none

/-- Only the driver call at position `k` fails, with error `e`. -/
def failAt (k : Nat) (e : Err) : Nat → Option Err := fun n => if n = k then some e else none

def sampleDefaults : ImageRow :=
  { id := 0, owner_id := 0, shortcode := "", publish_time := 0, featured := false,
    downloads := 0, views := 0, favorites := 0 }

/-- An environment whose storage generates the id `100 + k` at call position `k`. -/
def envWith (getEmpty : Option Err) (stmtErr : Nat → Option Err) : Env :=
  { stmtErr := stmtErr, genId := fun k => 100 + (k : Int), getEmpty := getEmpty,
    imageDefaults := sampleDefaults }

def sampleMetadata : ImageMetadata :=
  { Aperture := 2, ExposureTime := 125, FocalLength := 50, ISO := 100, Make := "make",
    Model := "model", LensMake := "lens", LensModel := "lm", PixelXDimension := 640,
    PixelYDimension := 480, CaptureTime := 1, Location := { X := 10, Y := 20 },
    ImageDirection := 0 }

def sampleImage (landmarks : List Landmark) (colors : List Color) (labels : List Label) :
    Image :=
  { Id := 0, OwnerId := 7, Shortcode := "abc", PublishTime := 0, Featured := false,
    Metadata := sampleMetadata, Landmarks := landmarks, Colors := colors, Labels := labels,
    Tags := [], Stats := { Downloads := 0, Views := 0, Favorites := 0 },
    Source := { Raw := "", Large := "", Medium := "", Small := "", Thumb := "" } }

def sampleUser : User :=
  { Id := 0, Username := "ada", Email := "ada@example.org", Password := "hash", Salt := "salt",
    Images := [], Favorites := [] }

def tower : Landmark := { Description := "tower", Location := { X := 1, Y := 2 }, Score := 90 }

def bridge : Landmark := { Description := "bridge", Location := { X := 3, Y := 4 }, Score := 80 }

/-- A store whose only row is the landmark "tower", with id 5. -/
def storeTower : Store :=
  { Store.empty with landmarks := [{ id := 5, desc := "tower", location := { X := 1, Y := 2 } }] }

def red : Color :=
  { SRGB := { R := 255, G := 0, B := 0 }, HSV := { H := 0, S := 100, V := 100 },
    Shade := "light", ColorName := "red", PixelFraction := 50, Score := 70, Hex := "" }

def redRow (id : Int) : ColorRow :=
  { id := id, red := 255, green := 0, blue := 0, hue := 0, saturation := 100, val := 100,
    shade := "light", color := "red" }

/-- A store whose only row is the color red, stored under `id`. -/
def storeRed (id : Int) : Store :=
  { Store.empty with colors := [redRow id] }

def cat : Label := { Description := "cat", Score := 60 }

/-- A store whose only row is the label "cat", stored under id 0. -/
def storeCatZero : Store :=
  { Store.empty with labels := [{ id := 0, description := "cat" }] }

/-- The label insert (call 5) fails with `e1`, the bridge insert after it
(call 6) with `e2` when given. -/
def labelInsertFails (e1 : Err) (e2 : Option Err) : Nat → Option Err :=
  fun n => if n = 5 then some e1 else if n = 6 then e2 else none

/-! ## Colors already present in the store -/

/-- Every color of `cs` matches a `content.colors` row of `st`, and the first
such row has a non-zero id. -/
def AllColorsKnown (st : Store) (cs : List Color) : Prop :=
  ∀ c ∈ cs, ∃ id : Int, findColor st c.SRGB.R c.SRGB.G c.SRGB.B = some id ∧ id ≠ 0

/-- One bridge row per color of `cs`, for the image `imageId`, each pointing at
the first row of `content.colors` that matches the color. -/
def colorBridgeRows (st : Store) (imageId : Int) (cs : List Color) : List ColorBridgeRow :=
  cs.map (fun c =>
    { image_id := imageId,
      color_id := (findColor st c.SRGB.R c.SRGB.G c.SRGB.B).getD 0,
      pixel_fraction := c.PixelFraction, score := c.Score })

/-! ## URL templating (`getter.go`, `handlers/user.go`) -/

/-- Go function `imageSources(shortcode, location string) model.ImageSource`. -/
def imageSources (shortcode location : String) : ImageSource :=
  let base := "https://images.sprioc.xyz/" ++ location ++ "/"
  let resourceBaseURL := base ++ shortcode
  { Raw := resourceBaseURL,
    Large := resourceBaseURL ++ "?ixlib=rb-0.3.5&q=80&fm=jpg&crop=entropy",
    Medium := resourceBaseURL ++ "?ixlib=rb-0.3.5&q=80&fm=jpg&crop=entropy&w=1080&fit=max",
    Small := resourceBaseURL ++ "?ixlib=rb-0.3.5&q=80&fm=jpg&crop=entropy&w=400&fit=max",
    Thumb := resourceBaseURL ++ "?ixlib=rb-0.3.5&q=80&fm=jpg&crop=entropy&w=200&fit=max" }

/-- The `model.ImgSource` of the handlers package. -/
structure ImgSource where
  Raw : String
  Large : String
  Medium : String
  Small : String
  Thumb : String
deriving DecidableEq, Repr

/-- Go function `formatAvatarSources(shortcode string) model.ImgSource`. -/
def formatAvatarSources (shortcode : String) : ImgSource :=
  let resourceBaseURL := "https://images.sprioc.xyz/avatars/" ++ shortcode
  { Raw := resourceBaseURL,
    Large := resourceBaseURL ++ "?ixlib=rb-0.3.5&q=80&fm=jpg&crop=entropy",
    Medium := resourceBaseURL ++ "?ixlib=rb-0.3.5&q=80&fm=jpg&crop=entropy&w=1080&fit=max",
    Small := resourceBaseURL ++ "?ixlib=rb-0.3.5&q=80&fm=jpg&crop=entropy&w=400&fit=max",
    Thumb := resourceBaseURL ++ "?ixlib=rb-0.3.5&q=80&fm=jpg&crop=entropy&w=200&fit=max" }

/-! ## The read paths of `getter.go` -/

/-- The queries issued by the read paths. -/
inductive Query where
  | userById (u : Int)
  | userImageIds (u : Int)
  | userFavoriteIds (u : Int)
  | imageById (i : Int)
  | imageMetadata (i : Int)
  | imageLandmarks (i : Int)
  | imageLabels (i : Int)
  | imageTags (i : Int)
  | imageColors (i : Int)
  | imageStats (i : Int)
  | imageIdByShortcode (shortcode : String)
  | recentImageIds (limit : Int)
  | followedIds (u : Int)
  | favoriteIdsOrdered (u : Int)
  | featuredImageIds (limit : Int)
deriving DecidableEq, Repr

/-- The database handle `db` of the read paths: the committed store, which
queries fail and with what error, what `Get` does on an empty result set (as
in `Env`), and the method `SRGB.Hex`, which is not part of the sources. -/
structure Db where
  store : Store
  queryErr : Query → Option Err
  getEmpty : Option Err
  hex : SRGB → String

/-- The result pair `(value, error)` of a read, with the queries it issued. -/
abbrev Read (α : Type) := (α × Option Err) × List Query

/-- A `db.Get(&dest, ...)`: `found` is the first row of the result set. -/
def Db.get {α : Type} (db : Db) (q : Query) (found : Option α) (dest : α) : Option Err × α :=
  match db.queryErr q with
  | some e => (some e, dest)
  | none =>
    match found with
    | some a => (none, a)
    | none =>
      match db.getEmpty with
      | some e => (some e, dest)
      | none => (none, dest)

/-- A `db.Select(&dest, ...)` or `db.Query(...)`: all rows of the result set. -/
def Db.select {α : Type} (db : Db) (q : Query) (rows : List α) : Option Err × List α :=
  match db.queryErr q with
  | some e => (some e, [])
  | none => (none, rows)

def Point.zero : Point := { X := 0, Y := 0 }

def ImageMetadata.zero : ImageMetadata :=
  { Aperture := 0, ExposureTime := 0, FocalLength := 0, ISO := 0, Make := "", Model := "",
    LensMake := "", LensModel := "", PixelXDimension := 0, PixelYDimension := 0,
    CaptureTime := 0, Location := Point.zero, ImageDirection := 0 }

def ImageStats.zero : ImageStats := { Downloads := 0, Views := 0, Favorites := 0 }

def ImageSource.zero : ImageSource :=
  { Raw := "", Large := "", Medium := "", Small := "", Thumb := "" }

/-- The zero value `model.Image{}`. -/
def Image.zero : Image :=
  { Id := 0, OwnerId := 0, Shortcode := "", PublishTime := 0, Featured := false,
    Metadata := ImageMetadata.zero, Landmarks := [], Colors := [], Labels := [], Tags := [],
    Stats := ImageStats.zero, Source := ImageSource.zero }

/-- The zero value `model.User{}`. -/
def User.zero : User :=
  { Id := 0, Username := "", Email := "", Password := "", Salt := "", Images := [],
    Favorites := [] }

/-- A `content.images` row scanned into a `model.Image`. -/
def scanImage (r : ImageRow) : Image :=
  { Image.zero with Id := r.id, OwnerId := r.owner_id, Shortcode := r.shortcode,
                    PublishTime := r.publish_time, Featured := r.featured }

/-- A `content.image_metadata` row scanned into a `model.ImageMetadata`. -/
def scanMetadata (r : MetadataRow) : ImageMetadata :=
  { ImageMetadata.zero with
    Aperture := r.aperture, ExposureTime := r.exposure_time, FocalLength := r.focal_length,
    ISO := r.iso, Make := r.make, Model := r.model, LensMake := r.lens_make,
    LensModel := r.lens_model, PixelXDimension := r.pixel_xd, PixelYDimension := r.pixel_yd,
    CaptureTime := r.capture_time }

/-- A `content.users` row scanned into a `model.User`. -/
def scanUser (r : UserRow) : User :=
  { User.zero with Id := r.id, Username := r.username, Email := r.email,
                   Password := r.password, Salt := r.salt }

/-- Go function `imageMetadata(imageId int64) (model.ImageMetadata, error)`. -/
def imageMetadata (db : Db) (imageId : Int) : Read ImageMetadata :=
  match db.get (.imageMetadata imageId)
      ((db.store.image_metadata.find? (fun r => r.image_id == imageId)).map scanMetadata)
      ImageMetadata.zero with
  | (some e, m) => ((m, some e), [.imageMetadata imageId])
  | (none, m) => ((m, none), [.imageMetadata imageId])

/-- Go function `imageLandmarks(imageId int64) ([]model.Landmark, error)`: the join of the
bridge rows of the image with `content.landmarks`; the location column is
scanned into a local string and not kept. -/
def imageLandmarks (db : Db) (imageId : Int) : Read (List Landmark) :=
  match db.select (.imageLandmarks imageId)
      ((db.store.image_landmark_bridge.filter (fun b => b.image_id == imageId)).flatMap
        (fun b => (db.store.landmarks.filter (fun l => l.id == b.landmark_id)).map
          (fun l => ({ Description := l.desc, Location := Point.zero,
                       Score := b.score } : Landmark)))) with
  | (some e, _) => (([], some e), [.imageLandmarks imageId])
  | (none, landmarks) => ((landmarks, none), [.imageLandmarks imageId])

/-- Go function `imageLabels(imageId int64) ([]model.Label, error)`. -/
def imageLabels (db : Db) (imageId : Int) : Read (List Label) :=
  match db.select (.imageLabels imageId)
      ((db.store.image_label_bridge.filter (fun b => b.image_id == imageId)).flatMap
        (fun b => (db.store.labels.filter (fun l => l.id == b.label_id)).map
          (fun l => ({ Description := l.description, Score := b.score } : Label)))) with
  | (some e, labels) => ((labels, some e), [.imageLabels imageId])
  | (none, labels) => ((labels, none), [.imageLabels imageId])

/-- Go function `imageTags(imageId int64) ([]string, error)`. -/
def imageTags (db : Db) (imageId : Int) : Read (List String) :=
  match db.select (.imageTags imageId)
      (db.store.image_tags.flatMap
        (fun t => ((db.store.image_tag_bridge.filter
          (fun b => b.tag_id == t.id && b.image_id == imageId)).map
            (fun _ => t.description)))) with
  | (some e, tags) => ((tags, some e), [.imageTags imageId])
  | (none, tags) => ((tags, none), [.imageTags imageId])

/-- Go function `imageStats(imageId int64) (model.ImageStats, error)`. -/
def imageStats (db : Db) (imageId : Int) : Read ImageStats :=
  match db.get (.imageStats imageId)
      ((db.store.images.find? (fun r => r.id == imageId)).map
        (fun r => ({ Downloads := r.downloads, Views := r.views,
                     Favorites := r.favorites } : ImageStats)))
      ImageStats.zero with
  | (some e, s) => ((s, some e), [.imageStats imageId])
  | (none, s) => ((s, none), [.imageStats imageId])

/-- Go function `imageColors(imageId int64) ([]model.Color, error)`. -/
def imageColors (db : Db) (imageId : Int) : Read (List Color) :=
  match db.select (.imageColors imageId)
      (db.store.colors.flatMap
        (fun c => ((db.store.image_color_bridge.filter
          (fun b => b.color_id == c.id && b.image_id == imageId)).map
            (fun b => ({ SRGB := { R := c.red, G := c.green, B := c.blue },
                         HSV := { H := c.hue, S := c.saturation, V := c.val },
                         Shade := c.shade, ColorName := c.color,
                         PixelFraction := b.pixel_fraction, Score := b.score,
                         Hex := db.hex { R := c.red, G := c.green, B := c.blue } } : Color))))) with
  | (some e, _) => (([], some e), [.imageColors imageId])
  | (none, colors) => ((colors, none), [.imageColors imageId])

/-- Go function `GetImage(i int64) (model.Image, error)`. -/
def GetImage (db : Db) (i : Int) : Read Image :=
  match db.get (.imageById i) ((db.store.images.find? (fun r => r.id == i)).map scanImage)
      Image.zero with
  | (some e, _) => ((Image.zero, some e), [.imageById i])
  | (none, img) =>
    match imageMetadata db i with
    | ((_, some e), l1) => ((Image.zero, some e), .imageById i :: l1)
    | ((metadata, none), l1) =>
      match imageLandmarks db i with
      | ((_, some e), l2) => ((Image.zero, some e), .imageById i :: (l1 ++ l2))
      | ((landmarks, none), l2) =>
        match imageLabels db i with
        | ((_, some e), l3) => ((Image.zero, some e), .imageById i :: (l1 ++ l2 ++ l3))
        | ((labels, none), l3) =>
          match imageTags db i with
          | ((_, some e), l4) => ((Image.zero, some e), .imageById i :: (l1 ++ l2 ++ l3 ++ l4))
          | ((tags, none), l4) =>
            match imageColors db i with
            | ((_, some e), l5) =>
              ((Image.zero, some e), .imageById i :: (l1 ++ l2 ++ l3 ++ l4 ++ l5))
            | ((colors, none), l5) =>
              match imageStats db i with
              | ((_, some e), l6) =>
                ((Image.zero, some e), .imageById i :: (l1 ++ l2 ++ l3 ++ l4 ++ l5 ++ l6))
              | ((stats, none), l6) =>
                (({ img with Metadata := metadata, Landmarks := landmarks, Labels := labels,
                             Tags := tags, Colors := colors, Stats := stats,
                             Source := imageSources img.Shortcode "content" }, none),
                  .imageById i :: (l1 ++ l2 ++ l3 ++ l4 ++ l5 ++ l6))

/-- The loop of `GetImages`: `images` is the slice built so far, `log` the
queries issued so far. -/
def GetImages.loop (db : Db) : List Int → List Image → List Query → Read (List Image)
  | [], images, log => ((images, none), log)
  | imageId :: rest, images, log =>
    match GetImage db imageId with
    | ((_, some e), l) => (([], some e), log ++ l)
    | ((img, none), l) => GetImages.loop db rest (images ++ [img]) (log ++ l)

/-- Go function `GetImages(imageIDS []int64) ([]model.Image, error)`. -/
def GetImages (db : Db) (imageIDS : List Int) : Read (List Image) :=
  GetImages.loop db imageIDS [] []

/-- Go function `GetUserImages(userId int64) ([]model.Image, error)`; the column `user_id`
of its query is read as the owner column of `content.images`. -/
def GetUserImages (db : Db) (userId : Int) : Read (List Image) :=
  match db.select (.userImageIds userId)
      ((db.store.images.filter (fun r => r.owner_id == userId)).map (fun r => r.id)) with
  | (some e, _) => (([], some e), [.userImageIds userId])
  | (none, images) =>
    match GetImages db images with
    | (r, l) => (r, .userImageIds userId :: l)

/-- Go function `userFavorites(userId int64) ([]model.Image, error)`. -/
def userFavorites (db : Db) (userId : Int) : Read (List Image) :=
  match db.select (.userFavoriteIds userId)
      ((db.store.user_favorites.filter (fun r => r.user_id == userId)).map
        (fun r => r.image_id)) with
  | (some e, _) => (([], some e), [.userFavoriteIds userId])
  | (none, favorites) =>
    match GetImages db favorites with
    | (r, l) => (r, .userFavoriteIds userId :: l)

/-- Go function `GetUser(u int64) (model.User, error)`. -/
def GetUser (db : Db) (u : Int) : Read User :=
  match db.get (.userById u) ((db.store.users.find? (fun r => r.id == u)).map scanUser)
      User.zero with
  | (some e, _) => ((User.zero, some e), [.userById u])
  | (none, user) =>
    match GetUserImages db u with
    | ((_, some e), l1) => ((User.zero, some e), .userById u :: l1)
    | ((images, none), l1) =>
      match userFavorites db u with
      | ((_, some e), l2) => ((User.zero, some e), .userById u :: (l1 ++ l2))
      | ((favorites, none), l2) =>
        (({ user with Images := images, Favorites := favorites }, none),
          .userById u :: (l1 ++ l2))

/-- The loop of `GetUsers`. -/
def GetUsers.loop (db : Db) : List Int → List User → List Query → Read (List User)
  | [], users, log => ((users, none), log)
  | userId :: rest, users, log =>
    match GetUser db userId with
    | ((_, some e), l) => (([], some e), log ++ l)
    | ((usr, none), l) => GetUsers.loop db rest (users ++ [usr]) (log ++ l)

/-- Go function `GetUsers(userIds []int64) ([]model.User, error)`. -/
def GetUsers (db : Db) (userIds : List Int) : Read (List User) :=
  GetUsers.loop db userIds [] []

/-- Go function `GetImageID(shortcode string) (int64, error)`. -/
def GetImageID (db : Db) (shortcode : String) : Read Int :=
  match db.get (.imageIdByShortcode shortcode)
      ((db.store.images.find? (fun r => r.shortcode == shortcode)).map (fun r => r.id)) 0 with
  | (some e, _) => ((0, some e), [.imageIdByShortcode shortcode])
  | (none, iID) => ((iID, none), [.imageIdByShortcode shortcode])

/-! ## Listing queries -/

/-- The order of `ORDER BY publish_time DESC`: `a` may come before `b`. -/
def byPublishTimeDesc (a b : ImageRow) : Prop := b.publish_time ≤ a.publish_time

instance : DecidableRel byPublishTimeDesc :=
  fun a b => inferInstanceAs (Decidable (b.publish_time ≤ a.publish_time))

/-- The clause `ORDER BY publish_time DESC`; rows of equal publish time keep their
storage order. -/
def orderByPublishTimeDesc (rows : List ImageRow) : List ImageRow :=
  rows.insertionSort byPublishTimeDesc

/-- A query ending in `LIMIT $1`: the storage rejects a negative limit. -/
def Db.selectLimit {α : Type} (db : Db) (q : Query) (limit : Int) (rows : List α) :
    Option Err × List α :=
  match db.queryErr q with
  | some e => (some e, [])
  | none =>
    if limit < 0 then (some "LIMIT must not be negative", [])
    else (none, rows.take limit.toNat)

/-- The rows of `SELECT images.id FROM content.images AS images
ORDER BY publish_time DESC`, before the limit. -/
def recentImageRows (st : Store) : List ImageRow :=
  orderByPublishTimeDesc st.images

/-- The rows of `... WHERE featured = TRUE ORDER BY publish_time DESC`, before
the limit. -/
def featuredImageRows (st : Store) : List ImageRow :=
  orderByPublishTimeDesc (st.images.filter (fun r => r.featured))

/-- The join `content.user_favorites AS favs JOIN content.images AS images ON
favs.image_id = images.id WHERE favs.user_id = $1`. -/
def favoriteJoin (st : Store) (userID : Int) : List ImageRow :=
  (st.user_favorites.filter (fun f => f.user_id == userID)).flatMap
    (fun f => st.images.filter (fun r => r.id == f.image_id))

/-- The rows of the query of `GetUserFavorites`. -/
def favoriteImageRows (st : Store) (userID : Int) : List ImageRow :=
  orderByPublishTimeDesc (favoriteJoin st userID)

/-- The ids of the query of `GetUserFollowed`: the join of the follow rows of
the user with `content.users`, in storage order. -/
def followedUserIds (st : Store) (userID : Int) : List Int :=
  (st.user_follows.filter (fun f => f.user_id == userID)).flatMap
    (fun f => (st.users.filter (fun r => r.id == f.followed_id)).map (fun r => r.id))

/-- Go function `GetRecentImages(limit int) ([]model.Image, error)`. -/
def GetRecentImages (db : Db) (limit : Int) : Read (List Image) :=
  match db.selectLimit (.recentImageIds limit) limit
      ((recentImageRows db.store).map (fun r => r.id)) with
  | (some e, _) => (([], some e), [.recentImageIds limit])
  | (none, imageIds) =>
    match GetImages db imageIds with
    | (r, l) => (r, .recentImageIds limit :: l)

/-- Go function `GetUserFollowed(userID int64) ([]model.User, error)`. -/
def GetUserFollowed (db : Db) (userID : Int) : Read (List User) :=
  match db.select (.followedIds userID) (followedUserIds db.store userID) with
  | (some e, _) => (([], some e), [.followedIds userID])
  | (none, userIds) =>
    match GetUsers db userIds with
    | (r, l) => (r, .followedIds userID :: l)

/-- Go function `GetUserFavorites(userID int64) ([]model.Image, error)`. -/
def GetUserFavorites (db : Db) (userID : Int) : Read (List Image) :=
  match db.select (.favoriteIdsOrdered userID)
      ((favoriteImageRows db.store userID).map (fun r => r.id)) with
  | (some e, _) => (([], some e), [.favoriteIdsOrdered userID])
  | (none, imgs) =>
    match GetImages db imgs with
    | (r, l) => (r, .favoriteIdsOrdered userID :: l)

/-- Go function `GetFeaturedImages(limit int) ([]model.Image, error)`. -/
def GetFeaturedImages (db : Db) (limit : Int) : Read (List Image) :=
  match db.selectLimit (.featuredImageIds limit) limit
      ((featuredImageRows db.store).map (fun r => r.id)) with
  | (some e, _) => (([], some e), [.featuredImageIds limit])
  | (none, imgs) =>
    match GetImages db imgs with
    | (r, l) => (r, .featuredImageIds limit :: l)

/-! ## A sample database -/

def mkImageRow (id owner : Int) (shortcode : String) (publishTime : Int) (featured : Bool) :
    ImageRow :=
  { id := id, owner_id := owner, shortcode := shortcode, publish_time := publishTime,
    featured := featured, downloads := 0, views := 0, favorites := 0 }

def mkMetadataRow (imageId : Int) : MetadataRow :=
  { image_id := imageId, aperture := 2, exposure_time := 125, focal_length := 50, iso := 100,
    make := "make", model := "model", lens_make := "lens", lens_model := "lm",
    pixel_xd := 640, pixel_yd := 480, capture_time := 1 }

def mkUserRow (id : Int) (username : String) : UserRow :=
  { id := id, username := username, email := "", password := "", salt := "" }

/-- Images 1, 2, 4 and 5 (no image 3), users 1 and 2 (no user 3); user 1
has three favorites and follows users 2 and 1, in that storage order. -/
def sampleStore : Store :=
  { Store.empty with
    images := [mkImageRow 1 1 "aaa" 20 true, mkImageRow 2 1 "bbb" 30 false,
               mkImageRow 4 2 "ddd" 10 true, mkImageRow 5 2 "eee" 40 false],
    image_metadata := [mkMetadataRow 1, mkMetadataRow 2, mkMetadataRow 4, mkMetadataRow 5],
    users := [mkUserRow 1 "ada", mkUserRow 2 "bob"],
    user_favorites := [{ user_id := 1, image_id := 4 }, { user_id := 1, image_id := 2 },
                       { user_id := 1, image_id := 5 }],
    user_follows := [{ user_id := 1, followed_id := 2 }, { user_id := 1, followed_id := 1 }] }

/-- The sample store behind a driver whose `Get` reports an empty result set
as an error, no query failing otherwise. -/
def sampleDb : Db :=
  { store := sampleStore, queryErr := fun _ => none,
    getEmpty := some "sql: no rows in result set", hex := fun _ => "" }

/-- No two rows of `content.images` share an id: the id identifies the row. -/
def ImageIdsUnique (st : Store) : Prop :=
  ∀ r1 ∈ st.images, ∀ r2 ∈ st.images, r1.id = r2.id → r1 = r2

/-- Two images stored under the same id 1, with the shortcodes "a" and "b",
and the metadata row of that id. -/
def twinImages : Store :=
  { Store.empty with
    images := [mkImageRow 1 1 "a" 20 false, mkImageRow 1 1 "b" 10 false],
    image_metadata := [mkMetadataRow 1] }

instance : IsTotal ImageRow byPublishTimeDesc :=
  ⟨fun a b => Int.le_total b.publish_time a.publish_time⟩

instance : IsTrans ImageRow byPublishTimeDesc :=
  ⟨fun _ _ _ hab hbc => Int.le_trans hbc hab⟩

/-- Three images published at `t2`, `t3` and `t1`, stored in that order under
the ids 2, 3 and 1, each with its metadata row. -/
def threeImages (t1 t2 t3 : Int) : Store :=
  { Store.empty with
    images := [mkImageRow 2 1 "two" t2 false, mkImageRow 3 1 "three" t3 false,
               mkImageRow 1 1 "one" t1 false],
    image_metadata := [mkMetadataRow 1, mkMetadataRow 2, mkMetadataRow 3] }

/-- A store behind a driver in which no query fails. -/
def dbOf (st : Store) (getEmpty : Option Err) : Db :=
  { store := st, queryErr := fun _ => none, getEmpty := getEmpty, hex := fun _ => "" }

/-- A store of `n` users, numbered from 0, all followed by the user -1. -/
def crowd (n : Nat) : Store :=
  { Store.empty with
    users := (List.range n).map (fun (k : Nat) => mkUserRow (k : Int) "u"),
    user_follows :=
      (List.range n).map (fun (k : Nat) => { user_id := -1, followed_id := (k : Int) }) }

/-! ## The signup handler of `handlers/user.go` -/

namespace Handlers

/-- The request fields decoded from the JSON body. -/
structure signUpFields where
  Username : String
  Password : String
  Email : String
deriving DecidableEq, Repr

/-- The `model.User` document written by the handlers, reconstructed from the
composite literal in `Signup`. -/
structure User where
  ID : String
  Email : String
  Pass : String
  Salt : String
  ShortCode : String
deriving DecidableEq, Repr

/-- The `Response` of the handlers package: a status code, a message and the
serialized data. -/
structure Response where
  Code : Nat
  Message : String
  Data : String
deriving DecidableEq, Repr

/-- The constant `http.StatusAccepted`. -/
def StatusAccepted : Nat := 202

/-- The constant `http.StatusBadRequest`. -/
def StatusBadRequest : Nat := 400

/-- The constant `http.StatusConflict`. -/
def StatusConflict : Nat := 409

/-- Modelled from the spec: the helper `Resp(message, code)` of the handlers
package is not part of the sources; a handler "translates domain errors into
HTTP status codes", so `Resp` is the response carrying that message and that
status code. -/
def Resp (message : String) (code : Nat) : Response :=
  { Code := code, Message := message, Data := "" }

/-- The collaborators of `Signup`, none of which is part of the sources: the
JSON decoder applied to the request body, the two existence lookups on the
store handle `mongo`, the credential derivation, the generated object id and
the user-creating store operation, which returns its error and the store it
leaves behind. -/
structure Collaborators (S : Type) where
  Decode : String → Except Err signUpFields
  ExistsUserName : S → String → Bool
  ExistsEmail : S → String → Bool
  GetSaltPass : String → Except Err (String × String)
  NewObjectId : String
  CreateUser : S → User → Option Err × S

/-- The calls `Signup` makes to the store and to the credential derivation. -/
inductive Call where
  | existsUserName (username : String)
  | existsEmail (email : String)
  | getSaltPass
  | createUser (usr : User)
deriving DecidableEq, Repr

/-- What `Signup` leaves behind: its response, the store, and the calls made. -/
structure Result (S : Type) where
  resp : Response
  mongo : S
  calls : List Call

/-- Go function `Signup(w http.ResponseWriter, r *http.Request) Response`, run
on the request body against the store `mongo`.  The second existence lookup is
made only when the first is false. -/
def Signup {S : Type} (c : Collaborators S) (mongo : S) (body : String) : Result S :=
  match c.Decode body with
  | .error _ => { resp := Resp "Bad Request" StatusBadRequest, mongo := mongo, calls := [] }
  | .ok newUser =>
    if c.ExistsUserName mongo newUser.Username then
      { resp := Resp "Username or Email already exist" StatusConflict, mongo := mongo,
        calls := [.existsUserName newUser.Username] }
    else if c.ExistsEmail mongo newUser.Email then
      { resp := Resp "Username or Email already exist" StatusConflict, mongo := mongo,
        calls := [.existsUserName newUser.Username, .existsEmail newUser.Email] }
    else
      match c.GetSaltPass newUser.Password with
      | .error _ =>
        { resp := Resp "Error adding user" StatusConflict, mongo := mongo,
          calls := [.existsUserName newUser.Username, .existsEmail newUser.Email,
                    .getSaltPass] }
      | .ok (password, salt) =>
        let usr : User :=
          { ID := c.NewObjectId, Email := newUser.Email, Pass := password, Salt := salt,
            ShortCode := newUser.Username }
        match c.CreateUser mongo usr with
        | (some _, mongo1) =>
          { resp := Resp "Error adding user" StatusConflict, mongo := mongo1,
            calls := [.existsUserName newUser.Username, .existsEmail newUser.Email,
                      .getSaltPass, .createUser usr] }
        | (none, mongo1) =>
          { resp := { Code := StatusAccepted, Message := "", Data := "" }, mongo := mongo1,
            calls := [.existsUserName newUser.Username, .existsEmail newUser.Email,
                      .getSaltPass, .createUser usr] }

/-- The user document `Signup` builds from decoded fields and derived
credentials. -/
def newDocument {S : Type} (c : Collaborators S) (f : signUpFields) (password salt : String) :
    User :=
  { ID := c.NewObjectId, Email := f.Email, Pass := password, Salt := salt,
    ShortCode := f.Username }

/-- A sample set of collaborators over a store that is the list of user
documents: a body decodes when it is not empty, into the request of the given
username and email; a user exists when a document has that short code or that email; creation
appends the document. -/
def sampleCollaborators (username email : String) : Collaborators (List User) :=
  { Decode := fun body =>
      if body = "" then .error "EOF"
      else .ok { Username := username, Password := "secret", Email := email },
    ExistsUserName := fun mongo u => mongo.any (fun d => d.ShortCode == u),
    ExistsEmail := fun mongo e => mongo.any (fun d => d.Email == e),
    GetSaltPass := fun pw => .ok ("hash of " ++ pw, "salt"),
    NewObjectId := "oid1",
    CreateUser := fun mongo usr => (none, mongo ++ [usr]) }

/-- A store holding the document of the user "ada". -/
def sampleMongo : List User :=
  [{ ID := "oid0", Email := "ada@example.org", Pass := "h", Salt := "s", ShortCode := "ada" }]

end Handlers

/-! ## `model/ratio.go` -/

/-- The struct `Ratio`; `Num` and `Den` are `int64`. -/
structure Ratio where
  Num : Int
  Den : Int
  Rep : String
deriving DecidableEq, Repr

/-- The least `int64`. -/
def minInt64 : Int := -9223372036854775808

/-- The greatest `int64`. -/
def maxInt64 : Int := 9223372036854775807

/-- The value `x` is an `int64`. -/
def InInt64 (x : Int) : Prop := minInt64 ≤ x ∧ x ≤ maxInt64

instance (x : Int) : Decidable (InInt64 x) :=
  inferInstanceAs (Decidable (minInt64 ≤ x ∧ x ≤ maxInt64))

/-- Two's-complement wrap-around of a 64-bit signed result. -/
def wrapInt64 (x : Int) : Int :=
  (x + 9223372036854775808) % 18446744073709551616 - 9223372036854775808

/-- The text `fmt.Sprintf("%d", x)` of an integer: its base-10 digits, with a
leading minus sign when negative. -/
def sprintfD (x : Int) : String := toString x

/-- Go method `func (r Ratio) Format() string`; `none` is the run-time panic of
an integer division by zero.  The `int64` quotient `/` truncates toward zero
and wraps around. -/
def Ratio.Format (r : Ratio) : Option String :=
  if r.Den = 0 then none
  else some (sprintfD (wrapInt64 (Int.tdiv r.Num r.Den)))

/-- Go function `NewRatio(num, den int64, rep string) Ratio`. -/
def NewRatio (num den : Int) (rep : String) : Ratio :=
  { Num := num, Den := den, Rep := rep }

/-! ## Driver-call lemmas -/

theorem Tx.run_ok {env : Env} {tx tx1 : Tx} {s : Stmt} {eff : Store → Store}
    (h : tx.run env s eff = (none, tx1)) :
    tx1.st = eff tx.st ∧ tx1.log = tx.log ++ [s] ∧ env.stmtErr tx.log.length = none := by
  unfold Tx.run at h
  split at h <;> simp at h
  subst h
  simp_all

theorem Tx.run_err {env : Env} {tx tx1 : Tx} {s : Stmt} {eff : Store → Store} {e : Err}
    (h : tx.run env s eff = (some e, tx1)) :
    tx1.st = tx.st ∧ tx1.log = tx.log ++ [s] ∧ env.stmtErr tx.log.length = some e := by
  unfold Tx.run at h
  split at h <;> simp at h
  obtain ⟨h1, h2⟩ := h
  subst h1 h2
  simp_all

theorem Tx.getId_st {env : Env} {tx tx1 : Tx} {s : Stmt} {found : Option Int} {dest i : Int}
    {r : Option Err} (h : tx.getId env s found dest = (r, tx1, i)) :
    tx1.st = tx.st ∧ tx1.log = tx.log ++ [s] := by
  unfold Tx.getId at h
  split at h
  · simp at h; obtain ⟨_, h2, _⟩ := h; subst h2; simp
  · split at h
    · simp at h; obtain ⟨_, h2, _⟩ := h; subst h2; simp
    · split at h <;> (simp at h; obtain ⟨_, h2, _⟩ := h; subst h2; simp)

theorem Tx.insertReturning_ok {env : Env} {tx tx1 : Tx} {s : Stmt}
    {eff : Int → Store → Store} {dest i : Int}
    (h : tx.insertReturning env s eff dest = (none, tx1, i)) :
    tx1.st = eff i tx.st ∧ tx1.log = tx.log ++ [s] ∧ i = env.genId tx.log.length := by
  unfold Tx.insertReturning at h
  split at h <;> simp at h
  obtain ⟨h2, h3⟩ := h
  subst h2 h3
  simp

theorem Tx.insertReturning_any {env : Env} {tx tx1 : Tx} {s : Stmt}
    {eff : Int → Store → Store} {dest i : Int} {r : Option Err}
    (h : tx.insertReturning env s eff dest = (r, tx1, i)) :
    (tx1.st = tx.st ∨ tx1.st = eff i tx.st) ∧ tx1.log = tx.log ++ [s] := by
  unfold Tx.insertReturning at h
  split at h <;> (simp at h; obtain ⟨_, h2, h3⟩ := h; subst h2 h3; simp)

/-! ## What the three association loops change: lemmas -/

theorem landmarksLoop_ext (env : Env) (imageId : Int) (ls : List Landmark) :
    ∀ (cur : Int) (tx tx1 : Tx), landmarksLoop env imageId ls cur tx = (none, tx1) →
      LandmarkExt tx.st tx1.st ls.length := by
  induction ls with
  | nil =>
    intro cur tx tx1 h
    simp [landmarksLoop] at h
    subst h
    exact ⟨[], [], rfl, by simp⟩
  | cons l rest ih =>
    intro cur tx tx1 h
    rw [landmarksLoop] at h
    split at h
    · simp at h
    · rename_i txa ida hget
      have hst := (Tx.getId_st hget).1
      split at h
      · split at h
        · simp at h
        · rename_i txb idb hins
          have hb := (Tx.insertReturning_ok hins).1
          split at h
          · simp at h
          · rename_i txc hrun
            have hc := (Tx.run_ok hrun).1
            obtain ⟨refs, bridges, hlen, heq⟩ := ih _ _ _ h
            refine ⟨{ id := idb, desc := l.Description, location := l.Location } :: refs,
              { image_id := imageId, landmark_id := idb, score := l.Score } :: bridges,
              by simp [hlen], ?_⟩
            rw [heq, hc, hb, hst]
            simp [addLandmark, addLandmarkBridge]
      · split at h
        · simp at h
        · rename_i txc hrun
          have hc := (Tx.run_ok hrun).1
          obtain ⟨refs, bridges, hlen, heq⟩ := ih _ _ _ h
          refine ⟨refs, { image_id := imageId, landmark_id := ida, score := l.Score } :: bridges,
            by simp [hlen], ?_⟩
          rw [heq, hc, hst]
          simp [addLandmarkBridge]

theorem colorsLoop_ext (env : Env) (imageId : Int) (cs : List Color) :
    ∀ (cur : Int) (tx tx1 : Tx), colorsLoop env imageId cs cur tx = (none, tx1) →
      ColorExt tx.st tx1.st cs.length := by
  induction cs with
  | nil =>
    intro cur tx tx1 h
    simp [colorsLoop] at h
    subst h
    exact ⟨[], [], rfl, by simp⟩
  | cons c rest ih =>
    intro cur tx tx1 h
    rw [colorsLoop] at h
    split at h
    · simp at h
    · rename_i txa ida hget
      have hst := (Tx.getId_st hget).1
      split at h
      · split at h
        · simp at h
        · rename_i txb idb hins
          have hb := (Tx.insertReturning_ok hins).1
          split at h
          · simp at h
          · rename_i txc hrun
            have hc := (Tx.run_ok hrun).1
            obtain ⟨refs, bridges, hlen, heq⟩ := ih _ _ _ h
            refine ⟨{ id := idb, red := c.SRGB.R, green := c.SRGB.G, blue := c.SRGB.B,
                      hue := c.HSV.H, saturation := c.HSV.S, val := c.HSV.V, shade := c.Shade,
                      color := c.ColorName } :: refs,
              { image_id := imageId, color_id := idb, pixel_fraction := c.PixelFraction,
                score := c.Score } :: bridges,
              by simp [hlen], ?_⟩
            rw [heq, hc, hb, hst]
            simp [addColor, addColorBridge]
      · split at h
        · simp at h
        · rename_i txc hrun
          have hc := (Tx.run_ok hrun).1
          obtain ⟨refs, bridges, hlen, heq⟩ := ih _ _ _ h
          refine ⟨refs, { image_id := imageId, color_id := ida,
                          pixel_fraction := c.PixelFraction, score := c.Score } :: bridges,
            by simp [hlen], ?_⟩
          rw [heq, hc, hst]
          simp [addColorBridge]

theorem labelsLoop_ext (env : Env) (imageId : Int) (ls : List Label) :
    ∀ (cur : Int) (tx tx1 : Tx), labelsLoop env imageId ls cur tx = (none, tx1) →
      LabelExt tx.st tx1.st ls.length := by
  induction ls with
  | nil =>
    intro cur tx tx1 h
    simp [labelsLoop] at h
    subst h
    exact ⟨[], [], rfl, by simp⟩
  | cons l rest ih =>
    intro cur tx tx1 h
    rw [labelsLoop] at h
    split at h
    · simp at h
    · rename_i txa ida hget
      have hst := (Tx.getId_st hget).1
      split at h
      · split at h
        rename_i r txb idb hins
        have hb := (Tx.insertReturning_any hins).1
        split at h
        · simp at h
        · rename_i txc hrun
          have hc := (Tx.run_ok hrun).1
          obtain ⟨refs, bridges, hlen, heq⟩ := ih _ _ _ h
          rcases hb with hb | hb
          · refine ⟨refs, { image_id := imageId, label_id := idb, score := l.Score } :: bridges,
              by simp [hlen], ?_⟩
            rw [heq, hc, hb, hst]
            simp [addLabelBridge]
          · refine ⟨{ id := idb, description := l.Description } :: refs,
              { image_id := imageId, label_id := idb, score := l.Score } :: bridges,
              by simp [hlen], ?_⟩
            rw [heq, hc, hb, hst]
            simp [addLabel, addLabelBridge]
      · split at h
        · simp at h
        · rename_i txc hrun
          have hc := (Tx.run_ok hrun).1
          obtain ⟨refs, bridges, hlen, heq⟩ := ih _ _ _ h
          refine ⟨refs, { image_id := imageId, label_id := ida, score := l.Score } :: bridges,
            by simp [hlen], ?_⟩
          rw [heq, hc, hst]
          simp [addLabelBridge]

theorem finishImage_cases (env : Env) (committed : Store) (image : Image) (tx : Tx) :
    ((finishImage env committed image tx).err = none ∧
      (finishImage env committed image tx).committed =
        addCanView (-1) image.Id "image"
          (addCanDelete image.OwnerId image.Id "image"
            (addCanEdit image.OwnerId image.Id "image" tx.st))) ∨
    ((finishImage env committed image tx).err ≠ none ∧
      (finishImage env committed image tx).committed = committed) := by
  unfold finishImage
  split
  · right; simp
  · rename_i tx1 h1
    split
    · right; simp
    · rename_i tx2 h2
      split
      · right; simp
      · rename_i tx3 h3
        split
        · rename_i tx4 h4
          left
          simp [(Tx.run_ok h4).1, (Tx.run_ok h3).1, (Tx.run_ok h2).1, (Tx.run_ok h1).1]
        · split <;> (right; simp)

/-- C1: `CreateImage` either returns nil, and the committed store has gained
exactly one `content.images` row, one metadata row, one geo row, one bridge row
per landmark, per color and per label, and the three permission rows
(`can_edit` and `can_delete` for the owner, `can_view` for user id -1), or it
returns an error and the committed store is the one it started from; this
holds whichever driver calls fail. -/
theorem CreateImage_all_or_nothing (env : Env) (committed : Store) (image : Image) :
    ((CreateImage env committed image).err = none ∧
      ∃ newId : Int,
        (CreateImage env committed image).committed.images =
          committed.images ++ [{ env.imageDefaults with
            id := newId, owner_id := image.OwnerId, shortcode := image.Shortcode }] ∧
        (CreateImage env committed image).committed.images.length =
          committed.images.length + 1 ∧
        (CreateImage env committed image).committed.image_metadata.length =
          committed.image_metadata.length + 1 ∧
        (CreateImage env committed image).committed.image_geo.length =
          committed.image_geo.length + 1 ∧
        (CreateImage env committed image).committed.image_landmark_bridge.length =
          committed.image_landmark_bridge.length + image.Landmarks.length ∧
        (CreateImage env committed image).committed.image_color_bridge.length =
          committed.image_color_bridge.length + image.Colors.length ∧
        (CreateImage env committed image).committed.image_label_bridge.length =
          committed.image_label_bridge.length + image.Labels.length ∧
        (CreateImage env committed image).committed.can_edit =
          committed.can_edit ++ [{ user_id := image.OwnerId, o_id := newId, type := "image" }] ∧
        (CreateImage env committed image).committed.can_delete =
          committed.can_delete ++ [{ user_id := image.OwnerId, o_id := newId, type := "image" }] ∧
        (CreateImage env committed image).committed.can_view =
          committed.can_view ++ [{ user_id := -1, o_id := newId, type := "image" }] ∧
        (CreateImage env committed image).committed.users = committed.users ∧
        (CreateImage env committed image).committed.image_tags = committed.image_tags ∧
        (CreateImage env committed image).committed.image_tag_bridge =
          committed.image_tag_bridge ∧
        (CreateImage env committed image).committed.user_favorites =
          committed.user_favorites ∧
        (CreateImage env committed image).committed.user_follows = committed.user_follows) ∨
    ((CreateImage env committed image).err ≠ none ∧
      (CreateImage env committed image).committed = committed) := by
  unfold CreateImage
  split
  · right; simp
  · rename_i tx0 h0
    have e0 := (Tx.run_ok h0).1
    split
    · right; simp
    · rename_i tx1 newId h1
      have e1 := (Tx.insertReturning_ok h1).1
      simp only
      split
      · right; simp
      · rename_i tx2 h2
        have e2 := (Tx.run_ok h2).1
        split
        · right; simp
        · rename_i tx3 h3
          have e3 := (Tx.run_ok h3).1
          split
          · right; simp
          · rename_i tx4 h4
            obtain ⟨r4, b4, l4, e4⟩ := landmarksLoop_ext _ _ _ _ _ _ h4
            split
            · right; simp
            · rename_i tx5 h5
              obtain ⟨r5, b5, l5, e5⟩ := colorsLoop_ext _ _ _ _ _ _ h5
              split
              · right; simp
              · rename_i tx6 h6
                obtain ⟨r6, b6, l6, e6⟩ := labelsLoop_ext _ _ _ _ _ _ h6
                rcases finishImage_cases env committed { image with Id := newId } tx6 with
                  ⟨hn, hc⟩ | ⟨hn, hc⟩
                · left
                  refine ⟨hn, newId, ?_⟩
                  rw [hc, e6, e5, e4, e3, e2, e1, e0]
                  simp [addCanView, addCanDelete, addCanEdit, addGeo, addMetadata, addImage,
                    l4, l5, l6]
                · right
                  exact ⟨hn, hc⟩

/-! ## The transaction of the write paths is not closed -/

theorem CreateUser_log_cases (env : Env) (st : Store) (user : User) :
    (CreateUser env st user).tx.log = [.beginx] ∨
    (CreateUser env st user).tx.log = [.beginx, .insertUser] ∨
    (CreateUser env st user).tx.log = [.beginx, .insertUser, .insertCanEdit] ∨
    (CreateUser env st user).tx.log = [.beginx, .insertUser, .insertCanEdit, .insertCanDelete] ∨
    (CreateUser env st user).tx.log =
      [.beginx, .insertUser, .insertCanEdit, .insertCanDelete, .insertCanView] := by
  unfold CreateUser
  split
  · rename_i e tx0 h0
    simp [(Tx.run_err h0).2.1]
  · rename_i tx0 h0
    have l0 := (Tx.run_ok h0).2.1
    split
    · rename_i e tx1 i1 h1
      simp [(Tx.insertReturning_any h1).2, l0]
    · rename_i tx1 i1 h1
      have l1 := (Tx.insertReturning_any h1).2
      split
      · rename_i e tx2 h2
        simp [(Tx.run_err h2).2.1, l1, l0]
      · rename_i tx2 h2
        have l2 := (Tx.run_ok h2).2.1
        split
        · rename_i e tx3 h3
          simp [(Tx.run_err h3).2.1, l2, l1, l0]
        · rename_i tx3 h3
          have l3 := (Tx.run_ok h3).2.1
          split
          · rename_i e tx4 h4
            simp [(Tx.run_err h4).2.1, l3, l2, l1, l0]
          · rename_i tx4 h4
            simp [(Tx.run_ok h4).2.1, l3, l2, l1, l0]

/-- C2: evaluation of the write paths.  No exit path of `CreateUser` issues a
commit or a rollback, so it returns with its transaction open, also when it
returns nil; and when the metadata insert of `CreateImage` fails, the error is
returned after the failing statement with no rollback attempted. -/
theorem write_paths_leave_transaction_open :
    (∀ (env : Env) (st : Store) (user : User),
      Stmt.commit ∉ (CreateUser env st user).tx.log ∧
      Stmt.rollback ∉ (CreateUser env st user).tx.log) ∧
    (CreateUser (envWith none noFault) Store.empty sampleUser).err = none ∧
    (CreateUser (envWith none noFault) Store.empty sampleUser).tx.log =
      [.beginx, .insertUser, .insertCanEdit, .insertCanDelete, .insertCanView] ∧
    (CreateImage (envWith none (failAt 2 "boom")) Store.empty (sampleImage [] [] [])).err =
      some "boom" ∧
    (CreateImage (envWith none (failAt 2 "boom")) Store.empty (sampleImage [] [] [])).tx.log =
      [.beginx, .insertImage, .insertMetadata] := by
  refine ⟨?_, by decide, by decide, by decide, by decide⟩
  intro env st user
  rcases CreateUser_log_cases env st user with h | h | h | h | h <;> simp [h]

/-! ## `CreateUser` -/

/-- C3: evaluation of `CreateUser`.  Whatever the driver does, the committed
store after `CreateUser` is the one before it; and when all four statements
succeed on an empty store, nil is returned, no `content.users` row is
committed, and the permission rows of the uncommitted working copy carry the
`Id` field of the argument (0) as object id, not the id generated for the new
row (101). -/
theorem CreateUser_commits_nothing :
    (∀ (env : Env) (st : Store) (user : User), (CreateUser env st user).committed = st) ∧
    (CreateUser (envWith none noFault) Store.empty sampleUser).err = none ∧
    (CreateUser (envWith none noFault) Store.empty sampleUser).committed.users = [] ∧
    (CreateUser (envWith none noFault) Store.empty sampleUser).tx.st.users =
      [{ id := 101, username := "ada", email := "ada@example.org", password := "hash",
         salt := "salt" }] ∧
    (CreateUser (envWith none noFault) Store.empty sampleUser).tx.st.can_edit =
      [{ user_id := 0, o_id := 0, type := "user" }] ∧
    (CreateUser (envWith none noFault) Store.empty sampleUser).tx.st.can_delete =
      [{ user_id := 0, o_id := 0, type := "user" }] ∧
    (CreateUser (envWith none noFault) Store.empty sampleUser).tx.st.can_view =
      [{ user_id := -1, o_id := 0, type := "user" }] := by
  refine ⟨?_, by decide, by decide, by decide, by decide, by decide, by decide⟩
  intro env st user
  unfold CreateUser
  repeat' split
  all_goals rfl

/-! ## Find-or-create of reference rows -/

/-- C4: evaluation of `CreateImage` on a store holding only the landmark
"tower" (id 5), for an image with the landmarks "tower" and "bridge", no
driver call failing.  If `Get` reports an empty result set as an error `e`,
`CreateImage` returns `e`; if it returns nil and leaves its destination
untouched, the bridge row of "bridge" carries the id 5 left from "tower".
Either way no `content.landmarks` row is inserted for "bridge". -/
theorem CreateImage_unmatched_landmark_not_inserted :
    (∀ e : Err,
      (CreateImage (envWith (some e) noFault) storeTower
        (sampleImage [tower, bridge] [] [])).err = some e ∧
      (CreateImage (envWith (some e) noFault) storeTower
        (sampleImage [tower, bridge] [] [])).tx.st.landmarks = storeTower.landmarks) ∧
    (CreateImage (envWith none noFault) storeTower
      (sampleImage [tower, bridge] [] [])).err = none ∧
    (CreateImage (envWith none noFault) storeTower
      (sampleImage [tower, bridge] [] [])).committed.landmarks = storeTower.landmarks ∧
    (CreateImage (envWith none noFault) storeTower
      (sampleImage [tower, bridge] [] [])).committed.image_landmark_bridge =
      [{ image_id := 101, landmark_id := 5, score := 90 },
       { image_id := 101, landmark_id := 5, score := 80 }] := by
  refine ⟨fun e => ⟨rfl, rfl⟩, by decide, by decide, by decide⟩

/-- C5, as stated, fails: on a store whose only color row is red under id 0,
creating an image that carries red succeeds, and the committed store then
holds two red rows, the bridge row pointing at the new one (id 105). -/
theorem CreateImage_duplicates_color_of_id_zero :
    (storeRed 0).colors = [redRow 0] ∧
    ∀ g : Option Err,
      (CreateImage (envWith g noFault) (storeRed 0) (sampleImage [] [red] [])).err = none ∧
      (CreateImage (envWith g noFault) (storeRed 0) (sampleImage [] [red] [])).committed.colors =
        [redRow 0, redRow 105] ∧
      (CreateImage (envWith g noFault) (storeRed 0)
        (sampleImage [] [red] [])).committed.image_color_bridge =
        [{ image_id := 101, color_id := 105, pixel_fraction := 50, score := 70 }] :=
  ⟨rfl, fun _ => ⟨rfl, rfl, rfl⟩⟩

/-- C6: evaluation of `CreateImage` when the insert of a label row fails.  On
a store whose label "cat" has id 0, with the label insert (call 5) failing with
"insert failed": the bridge insert, the permission inserts and the commit are
still issued and nil is returned; and if the bridge insert fails too, with
"aborted", it is that later error which is returned. -/
theorem CreateImage_label_insert_error_ignored :
    ∀ g : Option Err,
      (CreateImage (envWith g (labelInsertFails "insert failed" none)) storeCatZero
        (sampleImage [] [] [cat])).err = none ∧
      (CreateImage (envWith g (labelInsertFails "insert failed" none)) storeCatZero
        (sampleImage [] [] [cat])).tx.log =
        [.beginx, .insertImage, .insertMetadata, .insertGeo, .selectLabel "cat",
         .insertLabel "cat", .insertLabelBridge 0, .insertCanEdit, .insertCanDelete,
         .insertCanView, .commit] ∧
      (CreateImage (envWith g (labelInsertFails "insert failed" (some "aborted"))) storeCatZero
        (sampleImage [] [] [cat])).err = some "aborted" ∧
      (CreateImage (envWith g (labelInsertFails "insert failed" (some "aborted"))) storeCatZero
        (sampleImage [] [] [cat])).tx.log =
        [.beginx, .insertImage, .insertMetadata, .insertGeo, .selectLabel "cat",
         .insertLabel "cat", .insertLabelBridge 0] := by
  intro g
  exact ⟨rfl, rfl, rfl, rfl⟩

/-! ## Colors already present in the store: lemmas -/

theorem Tx.getId_found {env : Env} {tx tx1 : Tx} {s : Stmt} {id dest i : Int}
    (h : tx.getId env s (some id) dest = (none, tx1, i)) : i = id := by
  unfold Tx.getId at h
  split at h <;> simp at h
  exact h.2.symm

theorem findColor_congr {s1 s2 : Store} (h : s1.colors = s2.colors) (r g b : Int) :
    findColor s1 r g b = findColor s2 r g b := by
  unfold findColor
  rw [h]

theorem colorBridgeRows_congr {s1 s2 : Store} (h : s1.colors = s2.colors) (imageId : Int)
    (cs : List Color) : colorBridgeRows s1 imageId cs = colorBridgeRows s2 imageId cs := by
  unfold colorBridgeRows
  simp only [findColor_congr h]

theorem AllColorsKnown_congr {s1 s2 : Store} (h : s1.colors = s2.colors) (cs : List Color)
    (hk : AllColorsKnown s1 cs) : AllColorsKnown s2 cs := by
  intro c hc
  obtain ⟨id, h1, h2⟩ := hk c hc
  exact ⟨id, by rw [← findColor_congr h]; exact h1, h2⟩

theorem colorsLoop_known (env : Env) (imageId : Int) (cs : List Color) :
    ∀ (cur : Int) (tx tx1 : Tx), AllColorsKnown tx.st cs →
      colorsLoop env imageId cs cur tx = (none, tx1) →
      tx1.st = { tx.st with image_color_bridge :=
        tx.st.image_color_bridge ++ colorBridgeRows tx.st imageId cs } := by
  induction cs with
  | nil =>
    intro cur tx tx1 _ h
    simp [colorsLoop] at h
    subst h
    simp [colorBridgeRows]
  | cons c rest ih =>
    intro cur tx tx1 hk h
    obtain ⟨id, hfound, hne⟩ := hk c (by simp)
    rw [colorsLoop, hfound] at h
    split at h
    · simp at h
    · rename_i txa ida hget
      have hst := (Tx.getId_st hget).1
      have hid := Tx.getId_found hget
      subst hid
      rw [if_neg hne] at h
      split at h
      · simp at h
      · rename_i txc hrun
        have hc := (Tx.run_ok hrun).1
        have hcol : txc.st.colors = tx.st.colors := by rw [hc, hst]; rfl
        have hk2 : AllColorsKnown txc.st rest :=
          AllColorsKnown_congr hcol.symm rest (fun d hd => hk d (by simp [hd]))
        rw [ih _ _ _ hk2 h, colorBridgeRows_congr hcol, hc, hst]
        simp [addColorBridge, colorBridgeRows, hfound]

theorem CreateImage_ok_decompose (env : Env) (st : Store) (image : Image)
    (hok : (CreateImage env st image).err = none) :
    ∃ (newId : Int) (tx3 tx4 tx5 tx6 : Tx),
      tx3.st = addGeo { image with Id := newId }
        (addMetadata { image with Id := newId } (addImage env image newId st)) ∧
      landmarksLoop env newId image.Landmarks 0 tx3 = (none, tx4) ∧
      colorsLoop env newId image.Colors 0 tx4 = (none, tx5) ∧
      labelsLoop env newId image.Labels 0 tx5 = (none, tx6) ∧
      (CreateImage env st image).committed =
        addCanView (-1) newId "image"
          (addCanDelete image.OwnerId newId "image"
            (addCanEdit image.OwnerId newId "image" tx6.st)) := by
  revert hok
  unfold CreateImage
  split
  · simp
  · rename_i tx0 h0
    have e0 := (Tx.run_ok h0).1
    split
    · simp
    · rename_i tx1 newId h1
      have e1 := (Tx.insertReturning_ok h1).1
      simp only
      split
      · simp
      · rename_i tx2 h2
        have e2 := (Tx.run_ok h2).1
        split
        · simp
        · rename_i tx3 h3
          have e3 := (Tx.run_ok h3).1
          split
          · simp
          · rename_i tx4 h4
            split
            · simp
            · rename_i tx5 h5
              split
              · simp
              · rename_i tx6 h6
                intro hok
                refine ⟨newId, tx3, tx4, tx5, tx6, ?_, h4, h5, h6, ?_⟩
                · rw [e3, e2, e1, e0]; rfl
                · rcases finishImage_cases env st { image with Id := newId } tx6 with
                    ⟨_, hc⟩ | ⟨hn, _⟩
                  · exact hc
                  · exact absurd hok hn

theorem known_colors_single_create (env : Env) (st : Store) (image : Image)
    (hk : AllColorsKnown st image.Colors) (hok : (CreateImage env st image).err = none) :
    (CreateImage env st image).committed.colors = st.colors ∧
    ∃ newId : Int, (CreateImage env st image).committed.image_color_bridge =
      st.image_color_bridge ++ colorBridgeRows st newId image.Colors := by
  obtain ⟨newId, tx3, tx4, tx5, tx6, e3, h4, h5, h6, hc⟩ :=
    CreateImage_ok_decompose env st image hok
  obtain ⟨r4, b4, _, e4⟩ := landmarksLoop_ext _ _ _ _ _ _ h4
  obtain ⟨r6, b6, _, e6⟩ := labelsLoop_ext _ _ _ _ _ _ h6
  have hcol4 : tx4.st.colors = st.colors := by rw [e4, e3]; rfl
  have e5 := colorsLoop_known env newId image.Colors 0 tx4 tx5
    (AllColorsKnown_congr hcol4.symm _ hk) h5
  rw [colorBridgeRows_congr hcol4] at e5
  refine ⟨?_, newId, ?_⟩
  · rw [hc, e6, e5, e4, e3]; rfl
  · rw [hc, e6, e5, e4, e3]; rfl

/-- C5 (amended): when every color of the image matches an existing
`content.colors` row whose id is not zero, a successful `CreateImage` leaves
`content.colors` unchanged and adds exactly one bridge row per color of the
image, pointing at the first matching existing row; and a second successful
`CreateImage` of such an image again leaves `content.colors` unchanged and adds
its own bridge rows after those of the first. -/
theorem CreateImage_known_colors (env1 env2 : Env) (st : Store) (image1 image2 : Image)
    (h1 : AllColorsKnown st image1.Colors) (h2 : AllColorsKnown st image2.Colors)
    (ok1 : (CreateImage env1 st image1).err = none) :
    ((CreateImage env1 st image1).committed.colors = st.colors ∧
      ∃ id1 : Int, (CreateImage env1 st image1).committed.image_color_bridge =
        st.image_color_bridge ++ colorBridgeRows st id1 image1.Colors) ∧
    ((CreateImage env2 (CreateImage env1 st image1).committed image2).err = none →
      (CreateImage env2 (CreateImage env1 st image1).committed image2).committed.colors =
        st.colors ∧
      ∃ id1 id2 : Int,
        (CreateImage env2 (CreateImage env1 st image1).committed
          image2).committed.image_color_bridge =
          st.image_color_bridge ++ colorBridgeRows st id1 image1.Colors ++
            colorBridgeRows st id2 image2.Colors) := by
  obtain ⟨hc1, id1, hb1⟩ := known_colors_single_create env1 st image1 h1 ok1
  refine ⟨⟨hc1, id1, hb1⟩, fun ok2 => ?_⟩
  obtain ⟨hc2, id2, hb2⟩ := known_colors_single_create env2 _ image2
    (AllColorsKnown_congr hc1.symm _ h2) ok2
  refine ⟨hc2.trans hc1, id1, id2, ?_⟩
  rw [hb2, hb1, colorBridgeRows_congr hc1]

theorem CreateImage_known_colors_witness :
    AllColorsKnown (storeRed 5) (sampleImage [] [red] []).Colors ∧
    (CreateImage (envWith none noFault) (storeRed 5) (sampleImage [] [red] [])).err = none ∧
    (((CreateImage (envWith none noFault) (storeRed 5)
        (sampleImage [] [red] [])).committed.colors = (storeRed 5).colors ∧
      ∃ id1 : Int, (CreateImage (envWith none noFault) (storeRed 5)
        (sampleImage [] [red] [])).committed.image_color_bridge =
        (storeRed 5).image_color_bridge ++
          colorBridgeRows (storeRed 5) id1 (sampleImage [] [red] []).Colors) ∧
    ((CreateImage (envWith none noFault) (CreateImage (envWith none noFault) (storeRed 5)
        (sampleImage [] [red] [])).committed (sampleImage [] [red] [])).err = none →
      (CreateImage (envWith none noFault) (CreateImage (envWith none noFault) (storeRed 5)
        (sampleImage [] [red] [])).committed (sampleImage [] [red] [])).committed.colors =
        (storeRed 5).colors ∧
      ∃ id1 id2 : Int,
        (CreateImage (envWith none noFault) (CreateImage (envWith none noFault) (storeRed 5)
          (sampleImage [] [red] [])).committed
          (sampleImage [] [red] [])).committed.image_color_bridge =
          (storeRed 5).image_color_bridge ++
            colorBridgeRows (storeRed 5) id1 (sampleImage [] [red] []).Colors ++
            colorBridgeRows (storeRed 5) id2 (sampleImage [] [red] []).Colors)) :=
  have hk : AllColorsKnown (storeRed 5) (sampleImage [] [red] []).Colors := by
    intro c hc
    have hc2 : c = red := by simpa [sampleImage] using hc
    subst hc2
    exact ⟨5, rfl, by decide⟩
  ⟨hk, by decide,
    CreateImage_known_colors (envWith none noFault) (envWith none noFault) (storeRed 5)
      (sampleImage [] [red] []) (sampleImage [] [red] []) hk hk (by decide)⟩


/-! ## URL templating -/

/-- C9: `imageSources(shortcode, location)` has `Raw` equal to
"https://images.sprioc.xyz/" + location + "/" + shortcode, and `Large`,
`Medium`, `Small`, `Thumb` equal to `Raw` followed by the common query string,
extended by the width parameters for the last three; and
`formatAvatarSources(shortcode)` yields field for field the URLs of
`imageSources(shortcode, "avatars")`. -/
theorem imageSources_format (shortcode location : String) :
    (imageSources shortcode location).Raw =
      "https://images.sprioc.xyz/" ++ location ++ "/" ++ shortcode ∧
    (imageSources shortcode location).Large =
      (imageSources shortcode location).Raw ++ "?ixlib=rb-0.3.5&q=80&fm=jpg&crop=entropy" ∧
    (imageSources shortcode location).Medium =
      (imageSources shortcode location).Raw ++
        ("?ixlib=rb-0.3.5&q=80&fm=jpg&crop=entropy" ++ "&w=1080&fit=max") ∧
    (imageSources shortcode location).Small =
      (imageSources shortcode location).Raw ++
        ("?ixlib=rb-0.3.5&q=80&fm=jpg&crop=entropy" ++ "&w=400&fit=max") ∧
    (imageSources shortcode location).Thumb =
      (imageSources shortcode location).Raw ++
        ("?ixlib=rb-0.3.5&q=80&fm=jpg&crop=entropy" ++ "&w=200&fit=max") ∧
    (formatAvatarSources shortcode).Raw = (imageSources shortcode "avatars").Raw ∧
    (formatAvatarSources shortcode).Large = (imageSources shortcode "avatars").Large ∧
    (formatAvatarSources shortcode).Medium = (imageSources shortcode "avatars").Medium ∧
    (formatAvatarSources shortcode).Small = (imageSources shortcode "avatars").Small ∧
    (formatAvatarSources shortcode).Thumb = (imageSources shortcode "avatars").Thumb := by
  have h1 : "?ixlib=rb-0.3.5&q=80&fm=jpg&crop=entropy" ++ "&w=1080&fit=max" =
      "?ixlib=rb-0.3.5&q=80&fm=jpg&crop=entropy&w=1080&fit=max" := by decide
  have h2 : "?ixlib=rb-0.3.5&q=80&fm=jpg&crop=entropy" ++ "&w=400&fit=max" =
      "?ixlib=rb-0.3.5&q=80&fm=jpg&crop=entropy&w=400&fit=max" := by decide
  have h3 : "?ixlib=rb-0.3.5&q=80&fm=jpg&crop=entropy" ++ "&w=200&fit=max" =
      "?ixlib=rb-0.3.5&q=80&fm=jpg&crop=entropy&w=200&fit=max" := by decide
  have h4 : "https://images.sprioc.xyz/" ++ "avatars" ++ "/" =
      "https://images.sprioc.xyz/avatars/" := by decide
  simp only [imageSources, formatAvatarSources, h1, h2, h3, h4]
  simp

/-! ## Plural readers -/

theorem GetImages_loop_ok (db : Db) (ids : List Int) :
    ∀ (acc : List Image) (log : List Query),
      (∀ i ∈ ids, (GetImage db i).1.2 = none) →
      GetImages.loop db ids acc log =
        ((acc ++ ids.map (fun i => (GetImage db i).1.1), none),
          log ++ ids.flatMap (fun i => (GetImage db i).2)) := by
  induction ids with
  | nil => intro acc log _; simp [GetImages.loop]
  | cons i rest ih =>
    intro acc log h
    have hi := h i (by simp)
    rw [GetImages.loop]
    split
    · rename_i e l heq
      rw [heq] at hi
      simp at hi
    · rename_i img l heq
      rw [ih _ _ (fun j hj => h j (by simp [hj]))]
      simp [heq]

theorem GetImages_loop_fail (db : Db) (pre : List Int) (bad : Int) (post : List Int) (e : Err) :
    ∀ (acc : List Image) (log : List Query),
      (∀ i ∈ pre, (GetImage db i).1.2 = none) → (GetImage db bad).1.2 = some e →
      GetImages.loop db (pre ++ bad :: post) acc log =
        (([], some e), log ++ (pre ++ [bad]).flatMap (fun i => (GetImage db i).2)) := by
  induction pre with
  | nil =>
    intro acc log _ hb
    rw [List.nil_append, GetImages.loop]
    split
    · rename_i e2 l heq
      rw [heq] at hb
      simp at hb
      simp [hb, heq]
    · rename_i img l heq
      rw [heq] at hb
      simp at hb
  | cons i rest ih =>
    intro acc log h hb
    have hi := h i (by simp)
    rw [List.cons_append, GetImages.loop]
    split
    · rename_i e2 l heq
      rw [heq] at hi
      simp at hi
    · rename_i img l heq
      rw [ih _ _ (fun j hj => h j (by simp [hj])) hb]
      simp [heq]

theorem GetUsers_loop_ok (db : Db) (ids : List Int) :
    ∀ (acc : List User) (log : List Query),
      (∀ i ∈ ids, (GetUser db i).1.2 = none) →
      GetUsers.loop db ids acc log =
        ((acc ++ ids.map (fun i => (GetUser db i).1.1), none),
          log ++ ids.flatMap (fun i => (GetUser db i).2)) := by
  induction ids with
  | nil => intro acc log _; simp [GetUsers.loop]
  | cons i rest ih =>
    intro acc log h
    have hi := h i (by simp)
    rw [GetUsers.loop]
    split
    · rename_i e l heq
      rw [heq] at hi
      simp at hi
    · rename_i usr l heq
      rw [ih _ _ (fun j hj => h j (by simp [hj]))]
      simp [heq]

theorem GetUsers_loop_fail (db : Db) (pre : List Int) (bad : Int) (post : List Int) (e : Err) :
    ∀ (acc : List User) (log : List Query),
      (∀ i ∈ pre, (GetUser db i).1.2 = none) → (GetUser db bad).1.2 = some e →
      GetUsers.loop db (pre ++ bad :: post) acc log =
        (([], some e), log ++ (pre ++ [bad]).flatMap (fun i => (GetUser db i).2)) := by
  induction pre with
  | nil =>
    intro acc log _ hb
    rw [List.nil_append, GetUsers.loop]
    split
    · rename_i e2 l heq
      rw [heq] at hb
      simp at hb
      simp [hb, heq]
    · rename_i usr l heq
      rw [heq] at hb
      simp at hb
  | cons i rest ih =>
    intro acc log h hb
    have hi := h i (by simp)
    rw [List.cons_append, GetUsers.loop]
    split
    · rename_i e2 l heq
      rw [heq] at hi
      simp at hi
    · rename_i usr l heq
      rw [ih _ _ (fun j hj => h j (by simp [hj])) hb]
      simp [heq]

/-- C7: when every single-item read succeeds, `GetImages` returns the
single-item results in the order of the ids and as many as there are ids; when
the reads of the ids `pre` succeed and the read of the next id `bad` fails with
`e`, it returns `e` with an empty list and the queries it has issued are those
of the reads of `pre` and of `bad`, none for a later id.  `GetUsers` behaves
likewise over `GetUser`. -/
theorem plural_readers_fail_fast (db : Db) :
    (∀ ids : List Int, (∀ i ∈ ids, (GetImage db i).1.2 = none) →
      (GetImages db ids).1 = (ids.map (fun i => (GetImage db i).1.1), none) ∧
      (GetImages db ids).1.1.length = ids.length) ∧
    (∀ (pre : List Int) (bad : Int) (post : List Int) (e : Err),
      (∀ i ∈ pre, (GetImage db i).1.2 = none) → (GetImage db bad).1.2 = some e →
      (GetImages db (pre ++ bad :: post)).1 = ([], some e) ∧
      (GetImages db (pre ++ bad :: post)).2 =
        (pre ++ [bad]).flatMap (fun i => (GetImage db i).2)) ∧
    (∀ ids : List Int, (∀ i ∈ ids, (GetUser db i).1.2 = none) →
      (GetUsers db ids).1 = (ids.map (fun i => (GetUser db i).1.1), none) ∧
      (GetUsers db ids).1.1.length = ids.length) ∧
    (∀ (pre : List Int) (bad : Int) (post : List Int) (e : Err),
      (∀ i ∈ pre, (GetUser db i).1.2 = none) → (GetUser db bad).1.2 = some e →
      (GetUsers db (pre ++ bad :: post)).1 = ([], some e) ∧
      (GetUsers db (pre ++ bad :: post)).2 =
        (pre ++ [bad]).flatMap (fun i => (GetUser db i).2)) := by
  refine ⟨fun ids h => ?_, fun pre bad post e h hb => ?_, fun ids h => ?_,
    fun pre bad post e h hb => ?_⟩
  · simp [GetImages, GetImages_loop_ok db ids [] [] h]
  · simp [GetImages, GetImages_loop_fail db pre bad post e [] [] h hb]
  · simp [GetUsers, GetUsers_loop_ok db ids [] [] h]
  · simp [GetUsers, GetUsers_loop_fail db pre bad post e [] [] h hb]

theorem plural_readers_fail_fast_witness :
    ((∀ i ∈ [1, 2], (GetImage sampleDb i).1.2 = none) ∧
      (GetImage sampleDb 3).1.2 = some "sql: no rows in result set" ∧
      (GetImages sampleDb ([1, 2] ++ 3 :: [4, 5])).1 = ([], some "sql: no rows in result set") ∧
      (GetImages sampleDb ([1, 2] ++ 3 :: [4, 5])).2 =
        ([1, 2] ++ [3]).flatMap (fun i => (GetImage sampleDb i).2)) ∧
    ((∀ i ∈ [4, 5], (GetImage sampleDb i).1.2 = none) ∧
      (GetImages sampleDb [4, 5]).1 = ([4, 5].map (fun i => (GetImage sampleDb i).1.1), none) ∧
      (GetImages sampleDb [4, 5]).1.1.length = [4, 5].length) ∧
    ((∀ i ∈ [1], (GetUser sampleDb i).1.2 = none) ∧
      (GetUser sampleDb 3).1.2 = some "sql: no rows in result set" ∧
      (GetUsers sampleDb ([1] ++ 3 :: [2])).1 = ([], some "sql: no rows in result set") ∧
      (GetUsers sampleDb ([1] ++ 3 :: [2])).2 =
        ([1] ++ [3]).flatMap (fun i => (GetUser sampleDb i).2)) :=
  ⟨⟨by decide, by decide,
      (plural_readers_fail_fast sampleDb).2.1 [1, 2] 3 [4, 5] "sql: no rows in result set"
        (by decide) (by decide)⟩,
    ⟨by decide, (plural_readers_fail_fast sampleDb).1 [4, 5] (by decide)⟩,
    ⟨by decide, by decide,
      (plural_readers_fail_fast sampleDb).2.2.2 [1] 3 [2] "sql: no rows in result set"
        (by decide) (by decide)⟩⟩

/-! ## Reading an image back by its shortcode -/

theorem Db.get_ok_found {α : Type} {db : Db} {q : Query} {a dest b : α}
    (h : db.get q (some a) dest = (none, b)) : b = a := by
  unfold Db.get at h
  split at h <;> simp at h
  exact h.symm

theorem GetImage_ok_shortcode (db : Db) (i : Int) (img : Image) (r : ImageRow)
    (hr : db.store.images.find? (fun r => r.id == i) = some r)
    (h : (GetImage db i).1 = (img, none)) :
    img.Shortcode = r.shortcode ∧ img.Source = imageSources r.shortcode "content" := by
  revert h
  unfold GetImage
  rw [hr]
  simp only [Option.map_some']
  split
  · simp
  · rename_i img0 hget
    have h0 := Db.get_ok_found hget
    subst h0
    repeat' split
    all_goals first
      | (intro h; simp at h; done)
      | (intro h
         simp only [Prod.mk.injEq, and_true] at h
         subst h
         exact ⟨rfl, rfl⟩)

/-- C10, as stated, fails: in a store where the images of the shortcodes "a"
and "b" share the id 1, `GetImageID("b")` returns 1 without error and
`GetImage(1)` returns without error the image of shortcode "a", with the
source URLs derived from "a"; this holds whatever `Get` does on an empty
result set. -/
theorem GetImage_GetImageID_shared_id :
    (∃ r ∈ twinImages.images, r.shortcode = "b") ∧
    ¬ ImageIdsUnique twinImages ∧
    ∀ g : Option Err,
      (GetImageID (dbOf twinImages g) "b").1 = (1, none) ∧
      (GetImage (dbOf twinImages g) 1).1.2 = none ∧
      (GetImage (dbOf twinImages g) 1).1.1.Shortcode = "a" ∧
      (GetImage (dbOf twinImages g) 1).1.1.Shortcode ≠ "b" ∧
      (GetImage (dbOf twinImages g) 1).1.1.Source = imageSources "a" "content" := by
  refine ⟨⟨mkImageRow 1 1 "b" 10 false, by decide, rfl⟩, ?_, fun g => ?_⟩
  · intro h
    have := h (mkImageRow 1 1 "a" 20 false) (by decide) (mkImageRow 1 1 "b" 10 false)
      (by decide) rfl
    exact absurd this (by decide)
  · have hs : (GetImage (dbOf twinImages g) 1).1.1.Shortcode = "a" := rfl
    refine ⟨rfl, rfl, hs, ?_, rfl⟩
    rw [hs]
    decide

/-- C10 (amended): in a store in which no two images share an id, for a
shortcode `s` of an image present in the store, if `GetImageID(s)` returns the id `i` without
error and `GetImage(i)` returns an image without error, that image has the
shortcode `s` and the source URLs derived from `s` under location "content". -/
theorem GetImage_GetImageID_roundtrip (db : Db) (s : String) (i : Int) (img : Image)
    (huniq : ImageIdsUnique db.store)
    (hs : ∃ r ∈ db.store.images, r.shortcode = s)
    (h1 : (GetImageID db s).1 = (i, none))
    (h2 : (GetImage db i).1 = (img, none)) :
    img.Shortcode = s ∧ img.Source = imageSources s "content" := by
  obtain ⟨r, hr, hrs⟩ := hs
  -- the lookup by shortcode finds a row `r0` with shortcode `s`
  have hsome : (db.store.images.find? (fun r => r.shortcode == s)).isSome := by
    rw [List.find?_isSome]
    exact ⟨r, hr, by simp [hrs]⟩
  obtain ⟨r0, hr0⟩ := Option.isSome_iff_exists.mp hsome
  have hr0s : r0.shortcode = s := by
    have := List.find?_some hr0
    simpa using this
  have hr0mem : r0 ∈ db.store.images := List.mem_of_find?_eq_some hr0
  have hi : i = r0.id := by
    revert h1
    unfold GetImageID
    rw [hr0]
    simp only [Option.map_some']
    split
    · simp
    · rename_i iID hget
      have := Db.get_ok_found hget
      intro h
      simp at h
      omega
  -- the lookup by id finds a row with that id, which is `r0`
  have hsome1 : (db.store.images.find? (fun r => r.id == i)).isSome := by
    rw [List.find?_isSome]
    exact ⟨r0, hr0mem, by simp [hi]⟩
  obtain ⟨r1, hr1⟩ := Option.isSome_iff_exists.mp hsome1
  have hr1id : r1.id = i := by
    have := List.find?_some hr1
    simpa using this
  have hr1mem : r1 ∈ db.store.images := List.mem_of_find?_eq_some hr1
  have heq : r1 = r0 := huniq r1 hr1mem r0 hr0mem (by rw [hr1id, hi])
  have := GetImage_ok_shortcode db i img r1 hr1 h2
  rw [heq, hr0s] at this
  exact this

theorem GetImage_GetImageID_roundtrip_witness :
    ImageIdsUnique sampleDb.store ∧
    (∃ r ∈ sampleDb.store.images, r.shortcode = "bbb") ∧
    (GetImageID sampleDb "bbb").1 = (2, none) ∧
    (GetImage sampleDb 2).1.2 = none ∧
    (GetImage sampleDb 2).1.1.Shortcode = "bbb" ∧
    (GetImage sampleDb 2).1.1.Source = imageSources "bbb" "content" :=
  have hu : ImageIdsUnique sampleDb.store := by
    unfold ImageIdsUnique
    decide
  have hs : ∃ r ∈ sampleDb.store.images, r.shortcode = "bbb" :=
    ⟨mkImageRow 2 1 "bbb" 30 false, by decide, rfl⟩
  ⟨hu, hs, by decide, by decide,
    GetImage_GetImageID_roundtrip sampleDb "bbb" 2 (GetImage sampleDb 2).1.1 hu hs
      (by decide) (by decide)⟩

/-! ## Listing queries -/

theorem GetRecentImages_three (t1 t2 t3 : Int) (g : Option Err) (h12 : t2 < t1)
    (h23 : t3 < t2) :
    (GetRecentImages (dbOf (threeImages t1 t2 t3) g) 2).1.2 = none ∧
    (GetRecentImages (dbOf (threeImages t1 t2 t3) g) 2).1.1.map (fun img => img.Id) = [1, 2] ∧
    (GetRecentImages (dbOf (threeImages t1 t2 t3) g) 2).1.1.map (fun img => img.PublishTime) =
      [t1, t2] := by
  have hrows : recentImageRows (threeImages t1 t2 t3) =
      [mkImageRow 1 1 "one" t1 false, mkImageRow 2 1 "two" t2 false,
       mkImageRow 3 1 "three" t3 false] := by
    have a1 : ¬ t2 ≤ t3 := by omega
    have a2 : ¬ t1 ≤ t2 := by omega
    have a3 : t3 ≤ t1 := by omega
    have a4 : t2 ≤ t1 := by omega
    have a5 : ¬ t1 ≤ t3 := by omega
    have a6 : t3 ≤ t2 := by omega
    simp [recentImageRows, orderByPublishTimeDesc, threeImages, List.insertionSort,
      List.orderedInsert, byPublishTimeDesc, mkImageRow, a1, a2, a3, a4, a5, a6]
  unfold GetRecentImages Db.selectLimit
  rw [show (dbOf (threeImages t1 t2 t3) g).store = threeImages t1 t2 t3 from rfl, hrows]
  refine ⟨rfl, rfl, rfl⟩

theorem length_le_length_flatMap {α β : Type} (l : List α) (f : α → List β)
    (h : ∀ a ∈ l, 0 < (f a).length) : l.length ≤ (l.flatMap f).length := by
  induction l with
  | nil => simp
  | cons a t ih =>
    have h1 := h a (by simp)
    have h2 := ih (fun b hb => h b (by simp [hb]))
    simp only [List.flatMap_cons, List.length_cons, List.length_append]
    omega

theorem crowd_images (n : Nat) : (crowd n).images = [] := rfl

theorem crowd_user_favorites (n : Nat) : (crowd n).user_favorites = [] := rfl

theorem crowd_mem_users (n k : Nat) (hk : k < n) : mkUserRow (k : Int) "u" ∈ (crowd n).users := by
  simp only [crowd, List.mem_map, List.mem_range]
  exact ⟨k, hk, rfl⟩

theorem GetUser_crowd (g : Option Err) (n k : Nat) (hk : k < n) :
    (GetUser (dbOf (crowd n) g) (k : Int)).1.2 = none := by
  have hsome : ((crowd n).users.find? (fun r => r.id == (k : Int))).isSome := by
    rw [List.find?_isSome]
    exact ⟨mkUserRow (k : Int) "u", crowd_mem_users n k hk, by simp [mkUserRow]⟩
  obtain ⟨r, hr⟩ := Option.isSome_iff_exists.mp hsome
  simp [GetUser, Db.get, dbOf, hr, GetUserImages, userFavorites, Db.select, GetImages,
    GetImages.loop, crowd_images, crowd_user_favorites]

theorem followedUserIds_crowd_mem (n : Nat) (u i : Int)
    (hi : i ∈ followedUserIds (crowd n) u) : ∃ k : Nat, k < n ∧ i = (k : Int) := by
  simp only [followedUserIds, List.mem_flatMap, List.mem_map, List.mem_filter] at hi
  obtain ⟨f, _, r, ⟨hr, _⟩, hri⟩ := hi
  simp only [crowd, List.mem_map, List.mem_range] at hr
  obtain ⟨k, hk, hkr⟩ := hr
  exact ⟨k, hk, by rw [← hri, ← hkr]; rfl⟩

theorem followedUserIds_crowd_length (n : Nat) :
    n ≤ (followedUserIds (crowd n) (-1)).length := by
  have hfilter : (crowd n).user_follows.filter (fun f => f.user_id == -1) =
      (crowd n).user_follows := by
    rw [List.filter_eq_self]
    intro f hf
    simp only [crowd, List.mem_map, List.mem_range] at hf
    obtain ⟨k, _, hkf⟩ := hf
    simp [← hkf]
  have hlen : (crowd n).user_follows.length = n := by simp [crowd]
  unfold followedUserIds
  rw [hfilter]
  refine le_trans (le_of_eq hlen.symm) (length_le_length_flatMap _ _ ?_)
  intro f hf
  simp only [crowd, List.mem_map, List.mem_range] at hf
  obtain ⟨k, hk, hkf⟩ := hf
  rw [List.length_map]
  apply List.length_pos_of_mem (a := mkUserRow (k : Int) "u")
  rw [List.mem_filter]
  exact ⟨crowd_mem_users n k hk, by simp [← hkf, mkUserRow]⟩

theorem GetUserFollowed_crowd (g : Option Err) (n : Nat) :
    n ≤ (GetUserFollowed (dbOf (crowd n) g) (-1)).1.1.length := by
  have hall : ∀ i ∈ followedUserIds (crowd n) (-1),
      (GetUser (dbOf (crowd n) g) i).1.2 = none := by
    intro i hi
    obtain ⟨k, hk, rfl⟩ := followedUserIds_crowd_mem n (-1) i hi
    exact GetUser_crowd g n k hk
  have hlen := followedUserIds_crowd_length n
  have hloop := GetUsers_loop_ok _ _ [] [] hall
  have hq : (GetUserFollowed (dbOf (crowd n) g) (-1)).1 =
      (GetUsers (dbOf (crowd n) g) (followedUserIds (crowd n) (-1))).1 := rfl
  rw [hq, GetUsers, hloop]
  simpa using hlen

/-- C8, as stated, fails: `GetUserFollowed` takes no cap and applies none.  No
number bounds the length of its result: the user -1 of a store in which it
follows `cap + 1` users gets them all.  On the sample store it returns the
followed users in the storage order of the follow rows, and `GetUserFavorites`
returns all three favorites of user 1, whereas `GetRecentImages(2)` stops at
two images. -/
theorem listing_without_cap :
    (¬ ∃ cap : Nat, ∀ (db : Db) (userID : Int),
      (GetUserFollowed db userID).1.1.length ≤ cap) ∧
    (GetUserFollowed sampleDb 1).1.2 = none ∧
    (GetUserFollowed sampleDb 1).1.1.map (fun u => u.Id) = [2, 1] ∧
    (GetUserFavorites sampleDb 1).1.2 = none ∧
    (GetUserFavorites sampleDb 1).1.1.map (fun img => img.Id) = [5, 2, 4] ∧
    (GetRecentImages sampleDb 2).1.1.map (fun img => img.Id) = [5, 2] := by
  refine ⟨?_, by decide, by decide, by decide, by decide, by decide⟩
  rintro ⟨cap, h⟩
  have h1 := h (dbOf (crowd (cap + 1)) (some "sql: no rows in result set")) (-1)
  have h2 := GetUserFollowed_crowd (some "sql: no rows in result set") (cap + 1)
  omega

/-- C8 (amended): `GetRecentImages` and `GetFeaturedImages` resolve the ids of
the (featured) images ordered by `publish_time` descending and cut to at most
`limit` ids; `GetUserFavorites` resolves the ids of all favorite images of the
user ordered by `publish_time` descending, without a cap; `GetUserFollowed`
resolves the ids of all followed users in storage order, without ordering or
cap; each then delegates to the plural reader.  For images published at
t1 > t2 > t3, `GetRecentImages(2)` returns the images of t1 and t2 in that
order. -/
theorem listing_queries (db : Db) (limit userID : Int) :
    ((recentImageRows db.store).Sorted byPublishTimeDesc ∧
      (recentImageRows db.store).Perm db.store.images ∧
      (db.queryErr (.recentImageIds limit) = none → 0 ≤ limit →
        (GetRecentImages db limit).1 =
          (GetImages db
            (((recentImageRows db.store).take limit.toNat).map (fun r => r.id))).1 ∧
        (((recentImageRows db.store).take limit.toNat).map (fun r => r.id)).length ≤
          limit.toNat)) ∧
    ((featuredImageRows db.store).Sorted byPublishTimeDesc ∧
      (featuredImageRows db.store).Perm (db.store.images.filter (fun r => r.featured)) ∧
      (db.queryErr (.featuredImageIds limit) = none → 0 ≤ limit →
        (GetFeaturedImages db limit).1 =
          (GetImages db
            (((featuredImageRows db.store).take limit.toNat).map (fun r => r.id))).1 ∧
        (((featuredImageRows db.store).take limit.toNat).map (fun r => r.id)).length ≤
          limit.toNat)) ∧
    ((favoriteImageRows db.store userID).Sorted byPublishTimeDesc ∧
      (favoriteImageRows db.store userID).Perm (favoriteJoin db.store userID) ∧
      (db.queryErr (.favoriteIdsOrdered userID) = none →
        (GetUserFavorites db userID).1 =
          (GetImages db ((favoriteImageRows db.store userID).map (fun r => r.id))).1)) ∧
    (db.queryErr (.followedIds userID) = none →
      (GetUserFollowed db userID).1 = (GetUsers db (followedUserIds db.store userID)).1) ∧
    (∀ (t1 t2 t3 : Int) (g : Option Err), t2 < t1 → t3 < t2 →
      (GetRecentImages (dbOf (threeImages t1 t2 t3) g) 2).1.2 = none ∧
      (GetRecentImages (dbOf (threeImages t1 t2 t3) g) 2).1.1.map (fun img => img.Id) =
        [1, 2] ∧
      (GetRecentImages (dbOf (threeImages t1 t2 t3) g) 2).1.1.map
        (fun img => img.PublishTime) = [t1, t2]) := by
  refine ⟨⟨List.sorted_insertionSort _ _, List.perm_insertionSort _ _, fun hq h0 => ⟨?_, ?_⟩⟩,
    ⟨List.sorted_insertionSort _ _, List.perm_insertionSort _ _, fun hq h0 => ⟨?_, ?_⟩⟩,
    ⟨List.sorted_insertionSort _ _, List.perm_insertionSort _ _, fun hq => ?_⟩,
    fun hq => ?_, fun t1 t2 t3 g h12 h23 => GetRecentImages_three t1 t2 t3 g h12 h23⟩
  · simp [GetRecentImages, Db.selectLimit, hq, not_lt.mpr h0, List.map_take]
  · simp
  · simp [GetFeaturedImages, Db.selectLimit, hq, not_lt.mpr h0, List.map_take]
  · simp
  · simp [GetUserFavorites, Db.select, hq]
  · simp [GetUserFollowed, Db.select, hq]

theorem listing_queries_witness :
    (sampleDb.queryErr (.recentImageIds 2) = none ∧ (0 : Int) ≤ 2 ∧
      (GetRecentImages sampleDb 2).1 =
        (GetImages sampleDb
          (((recentImageRows sampleDb.store).take (2 : Int).toNat).map (fun r => r.id))).1 ∧
      (((recentImageRows sampleDb.store).take (2 : Int).toNat).map (fun r => r.id)).length ≤
        (2 : Int).toNat) ∧
    (sampleDb.queryErr (.followedIds 1) = none ∧
      (GetUserFollowed sampleDb 1).1 = (GetUsers sampleDb (followedUserIds sampleDb.store 1)).1) ∧
    ((20 : Int) < 30 ∧ (10 : Int) < 20 ∧
      (GetRecentImages (dbOf (threeImages 30 20 10) none) 2).1.2 = none ∧
      (GetRecentImages (dbOf (threeImages 30 20 10) none) 2).1.1.map (fun img => img.Id) =
        [1, 2] ∧
      (GetRecentImages (dbOf (threeImages 30 20 10) none) 2).1.1.map
        (fun img => img.PublishTime) = [30, 20]) :=
  ⟨⟨rfl, by decide, (listing_queries sampleDb 2 1).1.2.2 rfl (by decide)⟩,
    ⟨rfl, (listing_queries sampleDb 2 1).2.2.2.1 rfl⟩,
    ⟨by decide, by decide,
      (listing_queries sampleDb 2 1).2.2.2.2 30 20 10 none (by decide) (by decide)⟩⟩

/-! ## The signup handler -/

/-- C11: for a body that decodes into fields whose username or email already
exists, `Signup` answers 409 without calling the user-creating store operation
and leaves the store as it was; a body that fails to decode is answered 400,
again without touching the store; and the answer is 202 exactly when the body
decodes, neither lookup finds the user, the credentials are derived, and the
user-creating store operation, called on the new document, returns no error. -/
theorem Signup_status {S : Type} (c : Handlers.Collaborators S) (mongo : S) (body : String) :
    (∀ f : Handlers.signUpFields, c.Decode body = .ok f →
      (c.ExistsUserName mongo f.Username = true ∨ c.ExistsEmail mongo f.Email = true) →
      (Handlers.Signup c mongo body).resp.Code = 409 ∧
      (Handlers.Signup c mongo body).mongo = mongo ∧
      ∀ usr : Handlers.User, Handlers.Call.createUser usr ∉ (Handlers.Signup c mongo body).calls) ∧
    (∀ e : Err, c.Decode body = .error e →
      (Handlers.Signup c mongo body).resp.Code = 400 ∧
      (Handlers.Signup c mongo body).mongo = mongo ∧
      (Handlers.Signup c mongo body).calls = []) ∧
    ((Handlers.Signup c mongo body).resp.Code = 202 ↔
      ∃ (f : Handlers.signUpFields) (password salt : String),
        c.Decode body = .ok f ∧
        c.ExistsUserName mongo f.Username = false ∧ c.ExistsEmail mongo f.Email = false ∧
        c.GetSaltPass f.Password = .ok (password, salt) ∧
        (c.CreateUser mongo (Handlers.newDocument c f password salt)).1 = none ∧
        Handlers.Call.createUser (Handlers.newDocument c f password salt) ∈
          (Handlers.Signup c mongo body).calls ∧
        (Handlers.Signup c mongo body).mongo =
          (c.CreateUser mongo (Handlers.newDocument c f password salt)).2) := by
  refine ⟨?_, ?_, ?_⟩
  · intro f hf hex
    unfold Handlers.Signup
    rw [hf]
    simp only
    by_cases h1 : c.ExistsUserName mongo f.Username = true
    · simp [h1, Handlers.Resp, Handlers.StatusConflict]
    · have h2 : c.ExistsEmail mongo f.Email = true := by tauto
      simp [h1, h2, Handlers.Resp, Handlers.StatusConflict]
  · intro e he
    unfold Handlers.Signup
    rw [he]
    simp [Handlers.Resp, Handlers.StatusBadRequest]
  · unfold Handlers.Signup
    cases hd : c.Decode body with
    | error e => simp [Handlers.Resp, Handlers.StatusBadRequest]
    | ok f =>
      simp only
      by_cases h1 : c.ExistsUserName mongo f.Username = true
      · simp [h1, Handlers.Resp, Handlers.StatusConflict]
      · by_cases h2 : c.ExistsEmail mongo f.Email = true
        · simp [h1, h2, Handlers.Resp, Handlers.StatusConflict]
        · cases hg : c.GetSaltPass f.Password with
          | error e => simp [h1, h2, Handlers.Resp, Handlers.StatusConflict]
          | ok ps =>
            obtain ⟨password, salt⟩ := ps
            have hdoc : Handlers.newDocument c f password salt =
                { ID := c.NewObjectId, Email := f.Email, Pass := password, Salt := salt,
                  ShortCode := f.Username } := rfl
            cases hc : c.CreateUser mongo
                { ID := c.NewObjectId, Email := f.Email, Pass := password, Salt := salt,
                  ShortCode := f.Username } with
            | mk err mongo1 =>
              cases err with
              | some e =>
                simp only [h1, h2, hc, if_false, Bool.false_eq_true]
                constructor
                · intro h
                  simp [Handlers.Resp, Handlers.StatusConflict] at h
                · rintro ⟨f2, pw2, salt2, hf2, _, _, hg2, hn2, _, _⟩
                  have hff : f2 = f := by simpa using hf2.symm
                  subst hff
                  rw [hg] at hg2
                  have hps : password = pw2 ∧ salt = salt2 := by simpa using hg2
                  obtain ⟨rfl, rfl⟩ := hps
                  rw [hdoc, hc] at hn2
                  simp at hn2
              | none =>
                simp only [h1, h2, hc, if_false, Bool.false_eq_true]
                constructor
                · intro _
                  refine ⟨f, password, salt, rfl, by simpa using h1, by simpa using h2, hg, ?_,
                    ?_, ?_⟩
                  · rw [hdoc, hc]
                  · rw [hdoc]; simp
                  · rw [hdoc, hc]
                · intro _
                  rfl

theorem Signup_status_witness :
    ((Handlers.sampleCollaborators "ada" "new@example.org").Decode "body" =
        .ok { Username := "ada", Password := "secret", Email := "new@example.org" } ∧
      (Handlers.sampleCollaborators "ada" "new@example.org").ExistsUserName
        Handlers.sampleMongo "ada" = true ∧
      (Handlers.Signup (Handlers.sampleCollaborators "ada" "new@example.org")
        Handlers.sampleMongo "body").resp.Code = 409 ∧
      (Handlers.Signup (Handlers.sampleCollaborators "ada" "new@example.org")
        Handlers.sampleMongo "body").mongo = Handlers.sampleMongo ∧
      ∀ usr : Handlers.User, Handlers.Call.createUser usr ∉
        (Handlers.Signup (Handlers.sampleCollaborators "ada" "new@example.org")
          Handlers.sampleMongo "body").calls) ∧
    ((Handlers.sampleCollaborators "bob" "ada@example.org").ExistsEmail
        Handlers.sampleMongo "ada@example.org" = true ∧
      (Handlers.Signup (Handlers.sampleCollaborators "bob" "ada@example.org")
        Handlers.sampleMongo "body").resp.Code = 409 ∧
      (Handlers.Signup (Handlers.sampleCollaborators "bob" "ada@example.org")
        Handlers.sampleMongo "body").mongo = Handlers.sampleMongo ∧
      ∀ usr : Handlers.User, Handlers.Call.createUser usr ∉
        (Handlers.Signup (Handlers.sampleCollaborators "bob" "ada@example.org")
          Handlers.sampleMongo "body").calls) ∧
    ((Handlers.sampleCollaborators "bob" "bob@example.org").Decode "" = .error "EOF" ∧
      (Handlers.Signup (Handlers.sampleCollaborators "bob" "bob@example.org")
        Handlers.sampleMongo "").resp.Code = 400 ∧
      (Handlers.Signup (Handlers.sampleCollaborators "bob" "bob@example.org")
        Handlers.sampleMongo "").mongo = Handlers.sampleMongo ∧
      (Handlers.Signup (Handlers.sampleCollaborators "bob" "bob@example.org")
        Handlers.sampleMongo "").calls = []) ∧
    (Handlers.Signup (Handlers.sampleCollaborators "bob" "bob@example.org")
      Handlers.sampleMongo "body").resp.Code = 202 ∧
    (Handlers.Signup (Handlers.sampleCollaborators "bob" "bob@example.org")
      Handlers.sampleMongo "body").mongo =
      Handlers.sampleMongo ++
        [{ ID := "oid1", Email := "bob@example.org", Pass := "hash of secret", Salt := "salt",
           ShortCode := "bob" }] :=
  ⟨⟨rfl, by decide,
      (Signup_status (Handlers.sampleCollaborators "ada" "new@example.org")
        Handlers.sampleMongo "body").1
        { Username := "ada", Password := "secret", Email := "new@example.org" } rfl
        (Or.inl (by decide))⟩,
    ⟨by decide,
      (Signup_status (Handlers.sampleCollaborators "bob" "ada@example.org")
        Handlers.sampleMongo "body").1
        { Username := "bob", Password := "secret", Email := "ada@example.org" } rfl
        (Or.inr (by decide))⟩,
    ⟨rfl,
      (Signup_status (Handlers.sampleCollaborators "bob" "bob@example.org")
        Handlers.sampleMongo "").2.1 "EOF" rfl⟩,
    by decide, by decide⟩

/-! ## `Ratio.Format` -/

theorem wrapInt64_of_inInt64 (x : Int) (h : InInt64 x) : wrapInt64 x = x := by
  unfold InInt64 minInt64 maxInt64 at h
  unfold wrapInt64
  omega

theorem tdiv_inInt64 (a b : Int) (ha : InInt64 a) (hb0 : b ≠ 0)
    (hne : ¬ (a = minInt64 ∧ b = -1)) : InInt64 (Int.tdiv a b) := by
  unfold InInt64 minInt64 maxInt64 at *
  by_cases h1 : b = 1
  · subst h1
    rw [Int.tdiv_one]
    exact ha
  · by_cases h2 : b = -1
    · subst h2
      rw [Int.tdiv_neg, Int.tdiv_one]
      have : a ≠ -9223372036854775808 := fun h => hne ⟨h, rfl⟩
      omega
    · have habs : (Int.tdiv a b).natAbs = a.natAbs / b.natAbs := Int.natAbs_tdiv a b
      have hb2 : 2 ≤ b.natAbs := by omega
      have hle : a.natAbs / b.natAbs ≤ a.natAbs / 2 :=
        Nat.div_le_div_left hb2 (by decide)
      omega

theorem tdiv_sign (a b : Int) :
    (0 ≤ a → 0 < b → 0 ≤ Int.tdiv a b) ∧ (0 ≤ a → b < 0 → Int.tdiv a b ≤ 0) ∧
    (a ≤ 0 → 0 < b → Int.tdiv a b ≤ 0) ∧ (a ≤ 0 → b < 0 → 0 ≤ Int.tdiv a b) := by
  refine ⟨fun ha hb => Int.tdiv_nonneg ha (by omega), fun ha hb => ?_, fun ha hb => ?_,
    fun ha hb => ?_⟩
  · have h : 0 ≤ Int.tdiv a (-b) := Int.tdiv_nonneg ha (by omega)
    rw [Int.tdiv_neg] at h
    omega
  · have h : 0 ≤ Int.tdiv (-a) b := Int.tdiv_nonneg (by omega) (by omega)
    rw [Int.neg_tdiv] at h
    omega
  · have h : 0 ≤ Int.tdiv (-a) (-b) := Int.tdiv_nonneg (by omega) (by omega)
    rw [Int.neg_tdiv_neg] at h
    exact h

/-- C12: for a `Ratio` whose `Num` is an `int64` and whose `Den` is not zero,
`Format` returns the base-10 text of the quotient of `Num` by `Den` truncated
toward zero, except that `MinInt64 / -1` wraps to `MinInt64` (the truncated
quotient has the quotient of the magnitudes as magnitude and the sign of the
exact quotient); the result does not depend on `Rep`; `Format` fails with the
division by zero exactly when `Den` is 0; and `NewRatio` stores its three
arguments unchanged, so it builds such a `Ratio` when given the denominator
0. -/
theorem Ratio_Format_spec (r : Ratio) (hn : InInt64 r.Num) :
    (r.Den ≠ 0 →
      r.Format = some (sprintfD
        (if r.Num = minInt64 ∧ r.Den = -1 then minInt64 else Int.tdiv r.Num r.Den))) ∧
    ((Int.tdiv r.Num r.Den).natAbs = r.Num.natAbs / r.Den.natAbs ∧
      (0 ≤ r.Num → 0 < r.Den → 0 ≤ Int.tdiv r.Num r.Den) ∧
      (0 ≤ r.Num → r.Den < 0 → Int.tdiv r.Num r.Den ≤ 0) ∧
      (r.Num ≤ 0 → 0 < r.Den → Int.tdiv r.Num r.Den ≤ 0) ∧
      (r.Num ≤ 0 → r.Den < 0 → 0 ≤ Int.tdiv r.Num r.Den)) ∧
    (r.Format = none ↔ r.Den = 0) ∧
    (∀ rep : String, Ratio.Format { r with Rep := rep } = r.Format) ∧
    (∀ (num den : Int) (rep : String),
      (NewRatio num den rep).Num = num ∧ (NewRatio num den rep).Den = den ∧
      (NewRatio num den rep).Rep = rep) ∧
    (∀ (num : Int) (rep : String), (NewRatio num 0 rep).Format = none) := by
  refine ⟨fun h0 => ?_, ⟨Int.natAbs_tdiv _ _, tdiv_sign _ _⟩, ?_, fun _ => rfl,
    fun _ _ _ => ⟨rfl, rfl, rfl⟩, fun _ _ => rfl⟩
  · unfold Ratio.Format
    rw [if_neg h0]
    by_cases hw : r.Num = minInt64 ∧ r.Den = -1
    · rw [if_pos hw, hw.1, hw.2]
      rfl
    · rw [if_neg hw, wrapInt64_of_inInt64 _ (tdiv_inInt64 _ _ hn h0 hw)]
  · unfold Ratio.Format
    by_cases h0 : r.Den = 0
    · simp [h0]
    · simp [h0]

theorem Ratio_Format_spec_witness :
    (InInt64 (-7) ∧ InInt64 2 ∧
      (NewRatio (-7) 2 "-7/2").Format = some "-3" ∧
      (NewRatio 7 2 "7/2").Format = some "3" ∧
      (NewRatio 7 2 "three and a half").Format = some "3") ∧
    (InInt64 minInt64 ∧ InInt64 (-1) ∧
      (NewRatio minInt64 (-1) "").Format = some "-9223372036854775808") ∧
    (NewRatio 1 0 "1/0").Format = none :=
  ⟨⟨by decide, by decide,
      ((Ratio_Format_spec (NewRatio (-7) 2 "-7/2") (by decide)).1
        (by decide)).trans (by decide),
      by decide, by decide⟩,
    ⟨by decide, by decide,
      ((Ratio_Format_spec (NewRatio minInt64 (-1) "") (by decide)).1
        (by decide)).trans (by decide)⟩,
    by decide⟩

end Conductor
